import Mathlib

/-! # Reconciliation handlers and validators of the AzureRM provider

A shallow embedding of the CRUD handlers in
`internal/services/policy/remediation_management_group.go` and
`internal/services/network/public_ip_resource.go` and of the validators in
`internal/services/cdn/frontdoor_utils.go`.

* A handler receives the resource data `d` and returns the error it reports
  (`none` for Go's `nil`), the resource data after the call and the log of the
  remote calls it issued, in order.
* The remote API is a script: the answer to the n-th call of each client
  method (counted from 0), given the arguments of that call.  Every run of a
  handler against a real remote corresponds to one such script.
* Real time is not represented: a timeout is counted in status queries.
-/

namespace AzureRM

/-! ## Values shared by the handlers -/

/-- Go `error` values met in the handlers. -/
inductive Err where
  /-- An error returned by a call of the Azure SDK client, with its message. -/
  | remote (message : String)
  /-- An error returned by one of the resource ID parsers, with its message. -/
  | parse (message : String)
  /-- An error returned by `d.Set` for the given key. -/
  | set (key : String)
  /-- The value of `tf.ImportAsExistsError(resourceName, id)`. -/
  | importAsExists (resourceName : String) (id : String)
  /-- The value of `fmt.Errorf(text)`, a message without arguments. -/
  | msg (text : String)
  /-- The value of `fmt.Errorf(format, args..., cause)`: the format names the
  operation, `args` are the rendered arguments that stand before the cause. -/
  | wrap (format : String) (args : List String) (cause : Err)
  /-- Poller: the phase is in neither the pending nor the terminal set. -/
  | unknownPhase (phase : String)
  /-- Poller: the timeout elapsed; carries the last phase observed. -/
  | timeout (lastPhase : String)
  deriving DecidableEq, Repr

/-- The embedded `autorest.Response`: `none` is a nil `*http.Response`. -/
structure Response where
  StatusCode : Option Nat
  deriving DecidableEq, Repr

/-- Modelled from the spec: `utils.ResponseWasNotFound` is not under src/; the
`NotFound` signal of the error taxonomy is a response that carries the HTTP
status 404 (a nil response is not a not-found). -/
def ResponseWasNotFound (resp : Response) : Bool :=
  match resp.StatusCode with
  | some code => code == 404
  | none => false

/-- Values stored in the resource data. -/
inductive Value where
  | null
  | str (s : String)
  | int (n : Int)
  | strs (xs : List String)
  | smap (kvs : List (String × Option String))
  deriving DecidableEq, Repr

/-- The type assertion `v.(string)`; the schema fixes the type, an unset
attribute reads as the zero value. -/
def Value.asString : Value → String
  | .str s => s
  | _ => ""

/-- The type assertion to a list of strings. -/
def Value.asStrings : Value → List String
  | .strs xs => xs
  | _ => []

/-- The type assertion to a map. -/
def Value.asMap : Value → List (String × Option String)
  | .smap kvs => kvs
  | _ => []

/-- The type assertion `v.(int)`. -/
def Value.asInt : Value → Int
  | .int n => n
  | _ => 0

/-- Whether a value is the zero value of its type (`d.GetOk` reports such a
value as not set). -/
def Value.isZero : Value → Bool
  | .null => true
  | .str s => s == ""
  | .int n => n == 0
  | .strs xs => xs.isEmpty
  | .smap kvs => kvs.isEmpty

/-- A `*string` handed to `d.Set`. -/
def Value.ofStringPtr : Option String → Value
  | some s => .str s
  | none => .null

/-- The `pluginsdk.ResourceData` of one resource: the tracked ID, the
new-resource flag, the attributes and the delete timeout (in status queries). -/
structure ResourceData where
  id : String
  isNewResource : Bool
  attrs : List (String × Value)
  timeoutDelete : Nat
  deriving DecidableEq, Repr

namespace ResourceData

/-- The call `d.Id()`. -/
def Id (d : ResourceData) : String := d.id

/-- The call `d.SetId(v)`. -/
def SetId (d : ResourceData) (v : String) : ResourceData := { d with id := v }

/-- The call `d.IsNewResource()`. -/
def IsNewResource (d : ResourceData) : Bool := d.isNewResource

/-- The call `d.Get(key)`. -/
def Get (d : ResourceData) (key : String) : Value :=
  match d.attrs.lookup key with
  | some v => v
  | none => .null

/-- The call `d.GetOk(key)`: the value and whether it is set to a non-zero value. -/
def GetOk (d : ResourceData) (key : String) : Value × Bool :=
  (d.Get key, !(d.Get key).isZero)

/-- The call `d.Set(key, v)`: the schema layer may reject the value
(`rejects`), in which case an error is returned and nothing is stored. -/
def Set (rejects : String → Value → Bool) (d : ResourceData) (key : String) (v : Value) :
    Option Err × ResourceData :=
  if rejects key v then (some (Err.set key), d)
  else (none, { d with attrs := (key, v) :: d.attrs.filter (fun kv => kv.1 != key) })

/-- The call `d.Timeout(pluginsdk.TimeoutDelete)`. -/
def TimeoutDelete (d : ResourceData) : Nat := d.timeoutDelete

end ResourceData

/-! ## The operation poller -/

/-- What a `pluginsdk.StateRefreshFunc` returns: `(result, state, err)`. -/
structure RefreshOut (ρ : Type) where
  result : Option ρ
  state : String
  err : Option Err

/-- Modelled from the spec: the tri-state outcome of one poll attempt
(`StillPending`, `Terminal(outcome)` or `Error(cause)`). -/
inductive PollResult where
  | StillPending
  | Terminal (outcome : String)
  | Error (cause : Err)
  deriving DecidableEq, Repr

/-- Modelled from the spec: one attempt of the Operation Poller
(`pluginsdk.StateChangeConf.WaitForStateContext` is not under src/).  A phase
in `terminalPhases` is terminal; a phase in `pendingPhases` is still pending; a
phase in neither set is the error `UnknownPhase`; a query that fails
transiently is retried, any other failure of the query is the error itself. -/
def pollAttempt {ρ : Type} (pendingPhases terminalPhases : List String)
    (isTransient : Err → Bool) (r : RefreshOut ρ) : PollResult :=
  match r.err with
  | some e => if isTransient e then .StillPending else .Error e
  | none =>
    if r.state ∈ terminalPhases then .Terminal r.state
    else if r.state ∈ pendingPhases then .StillPending
    else .Error (Err.unknownPhase r.state)

/-- Modelled from the spec: the Operation Poller
`Poll(handle, pendingPhases, terminalPhases, minInterval, timeout)`.  It queries
the status until an attempt is terminal or an error, or until the timeout
(counted in attempts) has elapsed, which is the error `Timeout` with the last
phase observed.  The state `σ` is what the status query reads and writes. -/
def Poll {σ ρ : Type} (refresh : σ → RefreshOut ρ × σ)
    (pendingPhases terminalPhases : List String) (isTransient : Err → Bool) :
    Nat → String → σ → PollResult × σ
  | 0, lastPhase, s => (.Error (Err.timeout lastPhase), s)
  | timeout + 1, lastPhase, s =>
    let r := refresh s
    match pollAttempt pendingPhases terminalPhases isTransient r.1 with
    | .StillPending =>
      Poll refresh pendingPhases terminalPhases isTransient timeout
        (if r.1.err.isSome then lastPhase else r.1.state) r.2
    | .Terminal outcome => (.Terminal outcome, r.2)
    | .Error cause => (.Error cause, r.2)

/-- The Go error of a finished wait: nil exactly for a terminal outcome. -/
def PollResult.toErr : PollResult → Option Err
  | .StillPending => none
  | .Terminal _ => none
  | .Error cause => some cause

/-! ## Policy remediation at management group scope -/

namespace Policy

/-- The `policyinsights.RemediationFilters` struct. -/
structure RemediationFilters where
  Locations : Option (List String)
  deriving DecidableEq, Repr

/-- The `policyinsights.RemediationProperties` struct. -/
structure RemediationProperties where
  PolicyAssignmentID : Option String
  PolicyDefinitionReferenceID : Option String
  ResourceDiscoveryMode : String
  ProvisioningState : Option String
  Filters : Option RemediationFilters
  deriving DecidableEq, Repr

/-- The `policyinsights.Remediation` struct. -/
structure Remediation where
  Response : Response
  RemediationProperties : Option RemediationProperties
  ID : Option String
  deriving DecidableEq, Repr

/-- The constant `policyinsights.ReEvaluateCompliance`. -/
def ReEvaluateCompliance : String := "ReEvaluateCompliance"

/-- The constant `policyinsights.ExistingNonCompliant`. -/
def ExistingNonCompliant : String := "ExistingNonCompliant"

/-- The `parse.ResourcePolicyRemediationId` struct. -/
structure ResourcePolicyRemediationId where
  Name : String
  ResourceId : String
  deriving DecidableEq, Repr

/-- The function `parse.NewResourcePolicyRemediationId(resourceId, name)`. -/
def NewResourcePolicyRemediationId (resourceId name : String) : ResourcePolicyRemediationId :=
  { Name := name, ResourceId := resourceId }

/-- The `managementgroup/parse.ManagementGroupId` struct. -/
structure ManagementGroupId where
  Name : String
  deriving DecidableEq, Repr

/-- A call issued to the remediations client. -/
inductive Call where
  | GetAtManagementGroup (managementGroupID remediationName : String)
  | CancelAtManagementGroup (managementGroupID remediationName : String)
  | DeleteAtManagementGroup (managementGroupID remediationName : String)
  | CreateOrUpdateAtManagementGroup (managementGroupID remediationName : String)
      (parameters : Remediation)
  deriving DecidableEq, Repr

/-- Whether the call is a `GetAtManagementGroup`. -/
def Call.isGet : Call → Bool
  | .GetAtManagementGroup _ _ => true
  | _ => false

/-- Whether the call is a `CancelAtManagementGroup`. -/
def Call.isCancel : Call → Bool
  | .CancelAtManagementGroup _ _ => true
  | _ => false

/-- Whether the call is a `DeleteAtManagementGroup`. -/
def Call.isDelete : Call → Bool
  | .DeleteAtManagementGroup _ _ => true
  | _ => false

/-- Whether the call is a `CreateOrUpdateAtManagementGroup`. -/
def Call.isCreateOrUpdate : Call → Bool
  | .CreateOrUpdateAtManagementGroup _ _ _ => true
  | _ => false

/-- The scripted `policyinsights.RemediationsClient`: each method maps the
number of earlier calls of that method, and the arguments, to its result and
the message of its error (`none` for a nil error). -/
structure RemediationsClient where
  GetAtManagementGroup : Nat → String → String → Remediation × Option String
  CancelAtManagementGroup : Nat → String → String → Remediation × Option String
  DeleteAtManagementGroup : Nat → String → String → Remediation × Option String
  CreateOrUpdateAtManagementGroup :
    Nat → String → String → Remediation → Remediation × Option String

/-- The handler argument `meta` and the helpers of the repository that are not
under src/: the client, the two ID parsers, `id.ID()`, the rendering of the
parsed ID by the verb `%s`, the rejections of `d.Set`, and which query
failures the poller counts as transient. -/
structure Meta where
  RemediationsClient : RemediationsClient
  ResourcePolicyRemediationID : String → Except String ResourcePolicyRemediationId
  ManagementGroupID : String → Except String ManagementGroupId
  ID : ResourcePolicyRemediationId → String
  Sprint : ResourcePolicyRemediationId → String
  SetRejects : String → Value → Bool
  IsTransient : Err → Bool

/-- Issue `client.GetAtManagementGroup` and log it. -/
def callGet (client : RemediationsClient) (log : List Call) (mg name : String) :
    (Remediation × Option Err) × List Call :=
  (((client.GetAtManagementGroup (log.countP Call.isGet) mg name).1,
    (client.GetAtManagementGroup (log.countP Call.isGet) mg name).2.map Err.remote),
    log ++ [Call.GetAtManagementGroup mg name])

/-- Issue `client.CancelAtManagementGroup` and log it. -/
def callCancel (client : RemediationsClient) (log : List Call) (mg name : String) :
    (Remediation × Option Err) × List Call :=
  (((client.CancelAtManagementGroup (log.countP Call.isCancel) mg name).1,
    (client.CancelAtManagementGroup (log.countP Call.isCancel) mg name).2.map Err.remote),
    log ++ [Call.CancelAtManagementGroup mg name])

/-- Issue `client.DeleteAtManagementGroup` and log it. -/
def callDelete (client : RemediationsClient) (log : List Call) (mg name : String) :
    (Remediation × Option Err) × List Call :=
  (((client.DeleteAtManagementGroup (log.countP Call.isDelete) mg name).1,
    (client.DeleteAtManagementGroup (log.countP Call.isDelete) mg name).2.map Err.remote),
    log ++ [Call.DeleteAtManagementGroup mg name])

/-- Issue `client.CreateOrUpdateAtManagementGroup` and log it. -/
def callCreateOrUpdate (client : RemediationsClient) (log : List Call) (mg name : String)
    (parameters : Remediation) : (Remediation × Option Err) × List Call :=
  (((client.CreateOrUpdateAtManagementGroup (log.countP Call.isCreateOrUpdate) mg name
      parameters).1,
    (client.CreateOrUpdateAtManagementGroup (log.countP Call.isCreateOrUpdate) mg name
      parameters).2.map Err.remote),
    log ++ [Call.CreateOrUpdateAtManagementGroup mg name parameters])

/-- What a handler leaves behind: the returned error, the resource data and
the log of remote calls. -/
structure Outcome where
  err : Option Err
  d : ResourceData
  log : List Call

/-- The function `managementGroupPolicyRemediationCancellationRefreshFunc`:
the returned closure, as a step on the call log. -/
def managementGroupPolicyRemediationCancellationRefreshFunc (meta : Meta)
    (id : ResourcePolicyRemediationId) (managementGroupId : ManagementGroupId) :
    List Call → RefreshOut Remediation × List Call := fun log =>
  let r := callGet meta.RemediationsClient log managementGroupId.Name id.Name
  match r.1.2 with
  | some err =>
    ({ result := none, state := "",
       err := some (Err.wrap "issuing read request for %s: %+v" [meta.ID id] err) }, r.2)
  | none =>
    match r.1.1.RemediationProperties with
    | none => ({ result := none, state := "", err := some (Err.msg "`properties` was nil") }, r.2)
    | some props =>
      match props.ProvisioningState with
      | none =>
        ({ result := none, state := "",
           err := some (Err.msg "`properties.ProvisioningState` was nil") }, r.2)
      | some state => ({ result := some r.1.1, state := state, err := none }, r.2)

/-- The provisioning state that a read reports to the refresh function: that of
an answer without error, with properties and with a provisioning state. -/
def reportedState (r : Remediation × Option String) : Option String :=
  match r.2 with
  | some _ => none
  | none => r.1.RemediationProperties.bind (fun props => props.ProvisioningState)

/-- The wait that the delete handler configures:
`Pending: {"Cancelling"}`, `Target: {"Succeeded", "Canceled", "Failed"}`,
the cancellation refresh function and the delete timeout. -/
def cancellationWait (d : ResourceData) (meta : Meta) (id : ResourcePolicyRemediationId)
    (managementGroupId : ManagementGroupId) (log : List Call) : PollResult × List Call :=
  Poll (managementGroupPolicyRemediationCancellationRefreshFunc meta id managementGroupId)
    ["Cancelling"] ["Succeeded", "Canceled", "Failed"] meta.IsTransient d.TimeoutDelete "" log

/-- The handler `resourceArmManagementGroupPolicyRemediationDelete`. -/
def resourceArmManagementGroupPolicyRemediationDelete (d : ResourceData) (meta : Meta)
    (log : List Call) : Outcome :=
  match meta.ResourcePolicyRemediationID d.Id with
  | .error err => ⟨some (Err.parse err), d, log⟩
  | .ok id =>
    match meta.ManagementGroupID id.ResourceId with
    | .error err => ⟨some (Err.parse err), d, log⟩
    | .ok managementGroupId =>
      let existing := callGet meta.RemediationsClient log managementGroupId.Name id.Name
      match existing.1.2 with
      | some err =>
        if ResponseWasNotFound existing.1.1.Response then ⟨none, d, existing.2⟩
        else ⟨some (Err.wrap "retrieving %s: %+v" [meta.Sprint id] err), d, existing.2⟩
      | none =>
        if existing.1.1.RemediationProperties.any
            (fun props => props.ResourceDiscoveryMode == ReEvaluateCompliance) then
          let cancelled := callCancel meta.RemediationsClient existing.2 managementGroupId.Name id.Name
          match cancelled.1.2 with
          | some err => ⟨some (Err.wrap "cancelling %s: %+v" [meta.ID id] err), d, cancelled.2⟩
          | none =>
            let waited := cancellationWait d meta id managementGroupId cancelled.2
            match waited.1.toErr with
            | some err =>
              ⟨some (Err.wrap "waiting for %s to be canceled: %+v" [meta.ID id] err), d, waited.2⟩
            | none =>
              let deleted := callDelete meta.RemediationsClient waited.2 managementGroupId.Name id.Name
              ⟨deleted.1.2, d, deleted.2⟩
        else
          let deleted := callDelete meta.RemediationsClient existing.2 managementGroupId.Name id.Name
          ⟨deleted.1.2, d, deleted.2⟩

/-- The handler `resourceArmManagementGroupPolicyRemediationRead`. -/
def resourceArmManagementGroupPolicyRemediationRead (d : ResourceData) (meta : Meta)
    (log : List Call) : Outcome :=
  match meta.ResourcePolicyRemediationID d.Id with
  | .error err => ⟨some (Err.wrap "reading Policy Remediation: %+v" [] (Err.parse err)), d, log⟩
  | .ok id =>
    match meta.ManagementGroupID id.ResourceId with
    | .error err => ⟨some (Err.parse err), d, log⟩
    | .ok managementGroupId =>
      let resp := callGet meta.RemediationsClient log managementGroupId.Name id.Name
      match resp.1.2 with
      | some err =>
        if ResponseWasNotFound resp.1.1.Response then ⟨none, d.SetId "", resp.2⟩
        else ⟨some (Err.wrap "reading %s: %+v" [meta.ID id] err), d, resp.2⟩
      | none =>
        let d1 := (d.Set meta.SetRejects "name" (.str id.Name)).2
        let d2 := (d1.Set meta.SetRejects "management_group_id" (.str id.ResourceId)).2
        match resp.1.1.RemediationProperties with
        | none => ⟨none, d2, resp.2⟩
        | some props =>
          let locations : List String :=
            match props.Filters with
            | some filters => filters.Locations.getD []
            | none => []
          let set3 := d2.Set meta.SetRejects "location_filters" (.strs locations)
          match set3.1 with
          | some err => ⟨some (Err.wrap "setting `location_filters`: %+v" [] err), set3.2, resp.2⟩
          | none =>
            let d4 := (set3.2.Set meta.SetRejects "policy_assignment_id"
              (Value.ofStringPtr props.PolicyAssignmentID)).2
            let d5 := (d4.Set meta.SetRejects "policy_definition_id"
              (Value.ofStringPtr props.PolicyDefinitionReferenceID)).2
            let d6 := (d5.Set meta.SetRejects "resource_discovery_mode"
              (.str props.ResourceDiscoveryMode)).2
            ⟨none, d6, resp.2⟩

/-- The existence check of a new resource, lines 110 to 120 of
`resourceArmManagementGroupPolicyRemediationCreateUpdate`: the error it returns
(`none` when the handler goes on) and the log. -/
def checkExisting (d : ResourceData) (meta : Meta) (id : ResourcePolicyRemediationId)
    (managementGroupId : ManagementGroupId) (log : List Call) : Option Err × List Call :=
  if d.IsNewResource then
    let existing := callGet meta.RemediationsClient log managementGroupId.Name id.Name
    match existing.1.2, ResponseWasNotFound existing.1.1.Response with
    | some err, false =>
      (some (Err.wrap "checking for presence of existing %s: %+v" [meta.ID id] err), existing.2)
    | _, _ =>
      match existing.1.1.ID with
      | some existingID =>
        if existingID != "" then
          (some (Err.importAsExists "azurerm_management_group_policy_remediation" existingID),
            existing.2)
        else (none, existing.2)
      | none => (none, existing.2)
  else (none, log)

/-- The handler `resourceArmManagementGroupPolicyRemediationCreateUpdate`. -/
def resourceArmManagementGroupPolicyRemediationCreateUpdate (d : ResourceData) (meta : Meta)
    (log : List Call) : Outcome :=
  let id := NewResourcePolicyRemediationId (d.Get "management_group_id").asString
    (d.Get "name").asString
  match meta.ManagementGroupID id.ResourceId with
  | .error err => ⟨some (Err.parse err), d, log⟩
  | .ok managementGroupId =>
    let checked := checkExisting d meta id managementGroupId log
    match checked.1 with
    | some err => ⟨some err, d, checked.2⟩
    | none =>
      let parameters : Remediation :=
        { Response := { StatusCode := none },
          ID := none,
          RemediationProperties := some
            { Filters := some { Locations := some (d.Get "location_filters").asStrings },
              PolicyAssignmentID := some (d.Get "policy_assignment_id").asString,
              PolicyDefinitionReferenceID := some (d.Get "policy_definition_id").asString,
              ResourceDiscoveryMode := (d.Get "resource_discovery_mode").asString,
              ProvisioningState := none } }
      let created := callCreateOrUpdate meta.RemediationsClient checked.2 managementGroupId.Name
        id.Name parameters
      match created.1.2 with
      | some err => ⟨some (Err.wrap "creating/updating %s: %+v" [meta.ID id] err), d, created.2⟩
      | none => resourceArmManagementGroupPolicyRemediationRead (d.SetId (meta.ID id)) meta created.2

/-! ### Sample inputs -/

/-- A remediation as the remote returns it. -/
def sampleRemediation (status : Nat) (mode : String) (state : Option String)
    (id : Option String) : Remediation :=
  { Response := { StatusCode := some status },
    ID := id,
    RemediationProperties := some
      { PolicyAssignmentID := some "assignment", PolicyDefinitionReferenceID := none,
        ResourceDiscoveryMode := mode, ProvisioningState := state, Filters := none } }

/-- A client scripted by the answers to the reads and the errors of the other calls. -/
def sampleClient (get : Nat → Remediation × Option String)
    (cancel delete create : Option String) : RemediationsClient :=
  { GetAtManagementGroup := fun n _ _ => get n,
    CancelAtManagementGroup := fun _ _ _ => ({ Response := ⟨none⟩, RemediationProperties := none, ID := none }, cancel),
    DeleteAtManagementGroup := fun _ _ _ => ({ Response := ⟨none⟩, RemediationProperties := none, ID := none }, delete),
    CreateOrUpdateAtManagementGroup := fun _ _ _ parameters => (parameters, create) }

/-- Helpers that accept every non-empty ID and management group. -/
def sampleMeta (client : RemediationsClient) : Meta :=
  { RemediationsClient := client,
    ResourcePolicyRemediationID := fun s =>
      if s = "" then .error "empty ID" else .ok { Name := "rem", ResourceId := "group" },
    ManagementGroupID := fun s => if s = "" then .error "empty ID" else .ok { Name := s },
    ID := fun id => id.ResourceId ++ "/remediations/" ++ id.Name,
    Sprint := fun id => id.ResourceId ++ "/remediations/" ++ id.Name,
    SetRejects := fun _ _ => false,
    IsTransient := fun _ => false }

/-- A tracked remediation with a delete timeout of five status queries. -/
def sampleData : ResourceData :=
  { id := "group/remediations/rem", isNewResource := false,
    attrs := [("management_group_id", .str "group"), ("name", .str "rem")], timeoutDelete := 5 }

/-- Reads of a remediation under re-evaluation whose cancellation is observed
as `Cancelling` twice and then as `Canceled`. -/
def sampleCancelling (n : Nat) : Remediation × Option String :=
  (sampleRemediation 200 ReEvaluateCompliance
    (if n < 3 then some "Cancelling" else some "Canceled") (some "group/remediations/rem"), none)

/-- Reads of a remediation under re-evaluation whose cancellation never ends. -/
def sampleStuck (_ : Nat) : Remediation × Option String :=
  (sampleRemediation 200 ReEvaluateCompliance (some "Cancelling") (some "group/remediations/rem"),
    none)

/-- A read that fails with the given status. -/
def sampleFailedGet (status : Nat) (_ : Nat) : Remediation × Option String :=
  ({ Response := { StatusCode := some status }, RemediationProperties := none, ID := none },
    some "request failed")

/-- A remediation that is to be created. -/
def sampleNew : ResourceData :=
  { id := "", isNewResource := true,
    attrs := [("management_group_id", .str "group"), ("name", .str "rem"),
      ("policy_assignment_id", .str "assignment")], timeoutDelete := 5 }

/-- A failed read that nevertheless carries an ID. -/
def sampleFailedGetWithID (status : Nat) (_ : Nat) : Remediation × Option String :=
  ({ Response := { StatusCode := some status }, RemediationProperties := none,
     ID := some "group/remediations/rem" }, some "request failed")

/-- Reads of a remediation that needs no cancellation. -/
def sampleNonCompliant (_ : Nat) : Remediation × Option String :=
  (sampleRemediation 200 ExistingNonCompliant (some "Succeeded") (some "group/remediations/rem"),
    none)

/-- Reads of a remediation under re-evaluation whose cancellation is observed
as `Cancelling` and then as `Evaluating`, a phase the wait does not know. -/
def sampleUnknownPhase (n : Nat) : Remediation × Option String :=
  (sampleRemediation 200 ReEvaluateCompliance
    (if n < 2 then some "Cancelling" else some "Evaluating") (some "group/remediations/rem"), none)

/-- Reads that first report the remediation as absent and then fail with status 500. -/
def sampleAbsentThenFailing (n : Nat) : Remediation × Option String :=
  if n = 0 then sampleFailedGet 404 n else sampleFailedGet 500 n

end Policy

/-! ## Public IP addresses -/

namespace Network

/-- The `network.PublicIPAddressSku` struct. -/
structure PublicIPAddressSku where
  Name : String
  Tier : String
  deriving DecidableEq, Repr

/-- The `network.SubResource` struct. -/
structure SubResource where
  ID : Option String
  deriving DecidableEq, Repr

/-- The `network.PublicIPAddressDNSSettings` struct. -/
structure PublicIPAddressDNSSettings where
  DomainNameLabel : Option String
  Fqdn : Option String
  ReverseFqdn : Option String
  deriving DecidableEq, Repr

/-- The `network.IPTag` struct. -/
structure IPTag where
  IPTagType : Option String
  Tag : Option String
  deriving DecidableEq, Repr

/-- The `network.PublicIPAddressPropertiesFormat` struct. -/
structure PublicIPAddressPropertiesFormat where
  PublicIPAllocationMethod : String
  PublicIPAddressVersion : String
  DNSSettings : Option PublicIPAddressDNSSettings
  IPTags : Option (List IPTag)
  IPAddress : Option String
  PublicIPPrefix : Option SubResource
  IdleTimeoutInMinutes : Option Int
  deriving DecidableEq, Repr

/-- The `network.PublicIPAddress` struct. -/
structure PublicIPAddress where
  Response : Response
  Sku : Option PublicIPAddressSku
  PublicIPAddressPropertiesFormat : Option PublicIPAddressPropertiesFormat
  Zones : Option (List String)
  Name : Option String
  Location : Option String
  Tags : List (String × Option String)
  deriving DecidableEq, Repr

/-- The future of a long-running create or delete, with its last response. -/
structure Future where
  Response : Response
  deriving DecidableEq, Repr

/-- The `parse.PublicIpAddressId` struct. -/
structure PublicIpAddressId where
  SubscriptionId : String
  ResourceGroup : String
  Name : String
  deriving DecidableEq, Repr

/-- The function `parse.NewPublicIpAddressID(subscriptionId, resourceGroup, name)`. -/
def NewPublicIpAddressID (subscriptionId resourceGroup name : String) : PublicIpAddressId :=
  { SubscriptionId := subscriptionId, ResourceGroup := resourceGroup, Name := name }

/-- A call issued to the public IP client or to a future it returned. -/
inductive Call where
  | Get (resourceGroup name expand : String)
  | CreateOrUpdate (resourceGroup name : String) (parameters : PublicIPAddress)
  | Delete (resourceGroup name : String)
  | WaitForCompletionRef (future : Future)
  deriving DecidableEq, Repr

/-- Whether the call is a `Get`. -/
def Call.isGet : Call → Bool
  | .Get _ _ _ => true
  | _ => false

/-- Whether the call is a `CreateOrUpdate`. -/
def Call.isCreateOrUpdate : Call → Bool
  | .CreateOrUpdate _ _ _ => true
  | _ => false

/-- Whether the call is a `Delete`. -/
def Call.isDelete : Call → Bool
  | .Delete _ _ => true
  | _ => false

/-- Whether the call is a `WaitForCompletionRef`. -/
def Call.isWait : Call → Bool
  | .WaitForCompletionRef _ => true
  | _ => false

/-- The scripted `network.PublicIPAddressesClient`: each method maps the number
of earlier calls of that method, and the arguments, to its result and the
message of its error (`none` for a nil error). -/
structure PublicIPsClient where
  Get : Nat → String → String → String → PublicIPAddress × Option String
  CreateOrUpdate : Nat → String → String → PublicIPAddress → Future × Option String
  Delete : Nat → String → String → Future × Option String
  WaitForCompletionRef : Nat → Future → Option String

/-- The handler argument `meta` and the helpers that are not under src/: the
client, the subscription, the ID parser, `id.ID()`, the rendering of the ID by
the verb `%s`, the 3.0 beta flag, `strings.EqualFold`, the location
normalisers, `azure.ExpandZones`, `zones.Expand`, `zones.Flatten`,
`tags.Expand`, `tags.Flatten` and the rejections of `d.Set`. -/
structure Meta where
  PublicIPsClient : PublicIPsClient
  SubscriptionId : String
  PublicIpAddressID : String → Except String PublicIpAddressId
  ID : PublicIpAddressId → String
  Sprint : PublicIpAddressId → String
  ThreePointOhBeta : Bool
  EqualFold : String → String → Bool
  NormalizeLocation : String → String
  NormalizeNilable : Option String → String
  ExpandZones : List String → Option (List String)
  ZonesExpand : List String → List String
  ZonesFlatten : Option (List String) → List String
  TagsExpand : List (String × Option String) → List (String × Option String)
  TagsFlatten : List (String × Option String) → List (String × Option String)
  SetRejects : String → Value → Bool

/-- Issue `client.Get` and log it. -/
def callGet (client : PublicIPsClient) (log : List Call) (rg name expand : String) :
    (PublicIPAddress × Option Err) × List Call :=
  (((client.Get (log.countP Call.isGet) rg name expand).1,
    (client.Get (log.countP Call.isGet) rg name expand).2.map Err.remote),
    log ++ [Call.Get rg name expand])

/-- Issue `client.CreateOrUpdate` and log it. -/
def callCreateOrUpdate (client : PublicIPsClient) (log : List Call) (rg name : String)
    (parameters : PublicIPAddress) : (Future × Option Err) × List Call :=
  (((client.CreateOrUpdate (log.countP Call.isCreateOrUpdate) rg name parameters).1,
    (client.CreateOrUpdate (log.countP Call.isCreateOrUpdate) rg name parameters).2.map Err.remote),
    log ++ [Call.CreateOrUpdate rg name parameters])

/-- Issue `client.Delete` and log it. -/
def callDelete (client : PublicIPsClient) (log : List Call) (rg name : String) :
    (Future × Option Err) × List Call :=
  (((client.Delete (log.countP Call.isDelete) rg name).1,
    (client.Delete (log.countP Call.isDelete) rg name).2.map Err.remote),
    log ++ [Call.Delete rg name])

/-- Issue `future.WaitForCompletionRef` and log it. -/
def callWait (client : PublicIPsClient) (log : List Call) (future : Future) :
    Option Err × List Call :=
  ((client.WaitForCompletionRef (log.countP Call.isWait) future).map Err.remote,
    log ++ [Call.WaitForCompletionRef future])

/-- What a handler leaves behind: the returned error, the resource data and
the log of remote calls. -/
structure Outcome where
  err : Option Err
  d : ResourceData
  log : List Call

/-- The conversion `int32(n)` of a Go `int`. -/
def toInt32 (n : Int) : Int := (n + 2147483648) % 4294967296 - 2147483648

/-- The function `flattenPublicIpPropsIpTags`: a later tag of the same type
replaces an earlier one. -/
def flattenPublicIpPropsIpTags (input : Option (List IPTag)) : List (String × Option String) :=
  match input with
  | none => []
  | some tags =>
    tags.foldl (fun out tag =>
      match tag.IPTagType with
      | some key => (key, tag.Tag) :: out.filter (fun kv => kv.1 != key)
      | none => out) []

/-- Modelled from the spec: `tags.FlattenAndSet` is not under src/; as a
flatten helper of the marshalling layer it stores the flattened tags under
`tags` through `d.Set` and reports the failure of that call. -/
def FlattenAndSet (meta : Meta) (d : ResourceData) (tagMap : List (String × Option String)) :
    Option Err × ResourceData :=
  let r := d.Set meta.SetRejects "tags" (.smap (meta.TagsFlatten tagMap))
  match r.1 with
  | some err => (some (Err.wrap "setting `tags`: %s" [] err), r.2)
  | none => (none, r.2)

/-- The zones of the payload, lines 245 to 291 of `resourcePublicIpCreateUpdate`:
an error, or the value assigned to `publicIp.Zones` (`none` when the field is
left nil). -/
def expandPublicIpZones (d : ResourceData) (meta : Meta) (sku sku_tier : String) :
    Except Err (Option (List String)) :=
  if meta.ThreePointOhBeta then
    let zones := meta.ZonesExpand (d.Get "zones").asStrings
    if zones.length > 0 then .ok (some zones) else .ok none
  else
    let zones0 : List String := ["1", "2"]
    let deprecatedZonesRaw := d.GetOk "zones"
    let zones1 : List String :=
      if deprecatedZonesRaw.2 then
        match meta.ExpandZones deprecatedZonesRaw.1.asStrings with
        | some deprecatedZones => deprecatedZones
        | none => zones0
      else zones0
    let availabilityZones := d.GetOk "availability_zone"
    let zones2 : List String :=
      if availabilityZones.2 then
        if availabilityZones.1.asString = "1" ∨ availabilityZones.1.asString = "2"
            ∨ availabilityZones.1.asString = "3" then [availabilityZones.1.asString]
        else if availabilityZones.1.asString = "Zone-Redundant" then ["1", "2"]
        else if availabilityZones.1.asString = "No-Zone" then []
        else zones1
      else zones1
    let zonesSet : Bool := deprecatedZonesRaw.2 || availabilityZones.2
    if meta.EqualFold sku "Basic" && (zonesSet && decide (zones2.length > 0)) then
      .error (Err.msg "Availability Zones are not available on the `Basic` SKU")
    else if meta.EqualFold sku "Basic" && meta.EqualFold sku_tier "Global" then
      .error (Err.msg "Global` SKU tier is not available on the `Basic` SKU")
    else
      let zones3 : List String := if meta.EqualFold sku "Basic" then [] else zones2
      if meta.EqualFold sku_tier "Global" && (zonesSet && decide (zones3.length > 0)) then
        .error (Err.msg "Availability Zones are not available on the `Global` SKU tier")
      else
        .ok (some (if meta.EqualFold sku_tier "Global" then [] else zones3))

/-- The handler `resourcePublicIpRead`. -/
def resourcePublicIpRead (d : ResourceData) (meta : Meta) (log : List Call) : Outcome :=
  match meta.PublicIpAddressID d.Id with
  | .error err => ⟨some (Err.parse err), d, log⟩
  | .ok id =>
    let resp := callGet meta.PublicIPsClient log id.ResourceGroup id.Name ""
    match resp.1.2 with
    | some err =>
      if ResponseWasNotFound resp.1.1.Response then ⟨none, d.SetId "", resp.2⟩
      else ⟨some (Err.wrap "retrieving %s: %+v" [meta.Sprint id] err), d, resp.2⟩
    | none =>
      let set := fun (d : ResourceData) (key : String) (v : Value) =>
        (d.Set meta.SetRejects key v).2
      let d1 := set d "name" (.str id.Name)
      let d2 := set d1 "resource_group_name" (.str id.ResourceGroup)
      let d3 := set d2 "location" (.str (meta.NormalizeNilable resp.1.1.Location))
      let d4 :=
        if meta.ThreePointOhBeta then set d3 "zones" (.strs (meta.ZonesFlatten resp.1.1.Zones))
        else
          let availabilityZones : String :=
            match resp.1.1.Zones with
            | some zones =>
              if zones.length = 1 then zones.headD ""
              else if zones.length > 1 then "Zone-Redundant"
              else "No-Zone"
            | none => "No-Zone"
          let zonesDeprecated : List String :=
            match resp.1.1.Zones with
            | some zones => if zones.length = 1 then zones else []
            | none => []
          set (set d3 "availability_zone" (.str availabilityZones)) "zones" (.strs zonesDeprecated)
      let d5 :=
        match resp.1.1.Sku with
        | some sku => set (set d4 "sku" (.str sku.Name)) "sku_tier" (.str sku.Tier)
        | none => d4
      let d6 :=
        match resp.1.1.PublicIPAddressPropertiesFormat with
        | some props =>
          let p1 := set d5 "allocation_method" (.str props.PublicIPAllocationMethod)
          let p2 := set p1 "ip_version" (.str props.PublicIPAddressVersion)
          let p3 :=
            match props.PublicIPPrefix with
            | some publicIpPrefix => set p2 "public_ip_prefix_id" (Value.ofStringPtr publicIpPrefix.ID)
            | none => p2
          let p4 :=
            match props.DNSSettings with
            | some settings =>
              set (set (set p3 "fqdn" (Value.ofStringPtr settings.Fqdn))
                "reverse_fqdn" (Value.ofStringPtr settings.ReverseFqdn))
                "domain_name_label" (Value.ofStringPtr settings.DomainNameLabel)
            | none => p3
          let p5 := set p4 "ip_tags" (.smap (flattenPublicIpPropsIpTags props.IPTags))
          let p6 := set p5 "ip_address" (Value.ofStringPtr props.IPAddress)
          set p6 "idle_timeout_in_minutes"
            (match props.IdleTimeoutInMinutes with
              | some n => .int n
              | none => .null)
        | none => d5
      let r := FlattenAndSet meta d6 resp.1.1.Tags
      ⟨r.1, r.2, resp.2⟩

/-- The payload `publicIp` that `resourcePublicIpCreateUpdate` sends, lines 215
to 243 and 293 to 331, with the zones computed in between.  The tags of
`ip_tags` are taken in the order of the stored map. -/
def publicIpParameters (d : ResourceData) (meta : Meta) (id : PublicIpAddressId)
    (zones : Option (List String)) : PublicIPAddress :=
  let location := meta.NormalizeLocation (d.Get "location").asString
  let sku := (d.Get "sku").asString
  let sku_tier := (d.Get "sku_tier").asString
  let t := (d.Get "tags").asMap
  let idleTimeout := (d.Get "idle_timeout_in_minutes").asInt
  let ipVersion := (d.Get "ip_version").asString
  let ipAllocationMethod := (d.Get "allocation_method").asString
  let publicIpPrefixId := d.GetOk "public_ip_prefix_id"
  let dnl := d.GetOk "domain_name_label"
  let rfqdn := d.GetOk "reverse_fqdn"
  let ipTags := d.GetOk "ip_tags"
  { Response := { StatusCode := none },
    Name := some id.Name,
    Location := some location,
    Sku := some { Name := sku, Tier := sku_tier },
    PublicIPAddressPropertiesFormat := some
      { PublicIPAllocationMethod := ipAllocationMethod,
        PublicIPAddressVersion := ipVersion,
        IdleTimeoutInMinutes := some (toInt32 idleTimeout),
        PublicIPPrefix :=
          if publicIpPrefixId.2 then some { ID := some publicIpPrefixId.1.asString }
          else none,
        DNSSettings :=
          if dnl.2 || rfqdn.2 then
            some { ReverseFqdn := if rfqdn.2 then some rfqdn.1.asString else none,
                   DomainNameLabel := if dnl.2 then some dnl.1.asString else none,
                   Fqdn := none }
          else none,
        IPTags :=
          if ipTags.2 then
            some (ipTags.1.asMap.map (fun kv =>
              { IPTagType := some kv.1, Tag := some (kv.2.getD "") }))
          else none,
        IPAddress := none },
    Tags := meta.TagsExpand t,
    Zones := zones }

/-- The existence check of a new resource, lines 202 to 213 of
`resourcePublicIpCreateUpdate`: the error it returns (`none` when the handler
goes on) and the log. -/
def checkExisting (d : ResourceData) (meta : Meta) (id : PublicIpAddressId) (log : List Call) :
    Option Err × List Call :=
  if d.IsNewResource then
    let existing := callGet meta.PublicIPsClient log id.ResourceGroup id.Name ""
    match existing.1.2, ResponseWasNotFound existing.1.1.Response with
    | some err, false =>
      (some (Err.wrap "checking for presence of existing %s: %+v" [meta.Sprint id] err),
        existing.2)
    | none, false => (some (Err.importAsExists "azurerm_public_ip" (meta.ID id)), existing.2)
    | _, true => (none, existing.2)
  else (none, log)

/-- The handler `resourcePublicIpCreateUpdate`. -/
def resourcePublicIpCreateUpdate (d : ResourceData) (meta : Meta) (log : List Call) : Outcome :=
  let id := NewPublicIpAddressID meta.SubscriptionId (d.Get "resource_group_name").asString
    (d.Get "name").asString
  let checked := checkExisting d meta id log
  match checked.1 with
  | some err => ⟨some err, d, checked.2⟩
  | none =>
    let sku := (d.Get "sku").asString
    let sku_tier := (d.Get "sku_tier").asString
    let ipAllocationMethod := (d.Get "allocation_method").asString
    if meta.EqualFold sku "standard" && !meta.EqualFold ipAllocationMethod "static" then
      ⟨some (Err.msg
        "Static IP allocation must be used when creating Standard SKU public IP addresses."),
        d, checked.2⟩
    else
      match expandPublicIpZones d meta sku sku_tier with
      | .error err => ⟨some err, d, checked.2⟩
      | .ok zones =>
        let publicIp := publicIpParameters d meta id zones
        let future := callCreateOrUpdate meta.PublicIPsClient checked.2 id.ResourceGroup id.Name
          publicIp
        match future.1.2 with
        | some err => ⟨some (Err.wrap "creating/updating %s: %+v" [meta.Sprint id] err), d, future.2⟩
        | none =>
          let waited := callWait meta.PublicIPsClient future.2 future.1.1
          match waited.1 with
          | some err =>
            ⟨some (Err.wrap "waiting for creation/update of %s: %+v" [meta.Sprint id] err), d,
              waited.2⟩
          | none => resourcePublicIpRead (d.SetId (meta.ID id)) meta waited.2

/-- The handler `resourcePublicIpDelete`. -/
def resourcePublicIpDelete (d : ResourceData) (meta : Meta) (log : List Call) : Outcome :=
  match meta.PublicIpAddressID d.Id with
  | .error err => ⟨some (Err.parse err), d, log⟩
  | .ok id =>
    let future := callDelete meta.PublicIPsClient log id.ResourceGroup id.Name
    match future.1.2 with
    | some err => ⟨some (Err.wrap "deleting %s: %+v" [meta.Sprint id] err), d, future.2⟩
    | none =>
      let waited := callWait meta.PublicIPsClient future.2 future.1.1
      match waited.1 with
      | some err => ⟨some (Err.wrap "waiting for deletion of %s: %+v" [meta.Sprint id] err), d,
          waited.2⟩
      | none => ⟨none, d, waited.2⟩

/-! ### Sample inputs -/

/-- A public IP address as the remote returns it, with the given status. -/
def samplePublicIp (status : Nat) : PublicIPAddress :=
  { Response := { StatusCode := some status },
    Sku := some { Name := "Basic", Tier := "Regional" },
    PublicIPAddressPropertiesFormat := none,
    Zones := none, Name := some "ip", Location := some "westeurope", Tags := [] }

/-- A client scripted by the answers to the reads and the errors of the other
calls; a failing delete carries the given status. -/
def sampleClient (get : Nat → PublicIPAddress × Option String)
    (create wait delete : Option String) (deleteStatus : Nat) : PublicIPsClient :=
  { Get := fun n _ _ _ => get n,
    CreateOrUpdate := fun _ _ _ _ => ({ Response := { StatusCode := some 201 } }, create),
    Delete := fun _ _ _ => ({ Response := { StatusCode := some deleteStatus } }, delete),
    WaitForCompletionRef := fun _ _ => wait }

/-- Helpers that accept every non-empty ID and compare ASCII letters without case. -/
def sampleMeta (client : PublicIPsClient) : Meta :=
  { PublicIPsClient := client,
    SubscriptionId := "sub",
    PublicIpAddressID := fun s =>
      if s = "" then .error "empty ID"
      else .ok { SubscriptionId := "sub", ResourceGroup := "rg", Name := "ip" },
    ID := fun id => id.SubscriptionId ++ "/" ++ id.ResourceGroup ++ "/" ++ id.Name,
    Sprint := fun id => id.ResourceGroup ++ "/" ++ id.Name,
    ThreePointOhBeta := false,
    EqualFold := fun a b => a.data.map Char.toLower == b.data.map Char.toLower,
    NormalizeLocation := fun s => s,
    NormalizeNilable := fun s => s.getD "",
    ExpandZones := fun zs => if zs.isEmpty then none else some zs,
    ZonesExpand := fun zs => zs,
    ZonesFlatten := fun zs => zs.getD [],
    TagsExpand := fun t => t,
    TagsFlatten := fun t => t,
    SetRejects := fun _ _ => false }

/-- A public IP address that is to be created. -/
def sampleNew : ResourceData :=
  { id := "", isNewResource := true,
    attrs := [("name", .str "ip"), ("resource_group_name", .str "rg"),
      ("location", .str "westeurope"), ("allocation_method", .str "Static"),
      ("sku", .str "Standard"), ("sku_tier", .str "Regional")],
    timeoutDelete := 5 }

/-- A tracked public IP address. -/
def sampleTracked : ResourceData := { sampleNew with id := "sub/rg/ip", isNewResource := false }

/-- A read that fails with the given status. -/
def sampleFailedGet (status : Nat) (_ : Nat) : PublicIPAddress × Option String :=
  ({ samplePublicIp status with Sku := none }, some "request failed")

/-- Reads that first report the address as absent and then fail with status 500. -/
def sampleAbsentThenFailing (n : Nat) : PublicIPAddress × Option String :=
  if n = 0 then sampleFailedGet 404 n else sampleFailedGet 500 n

end Network

/-! ## Zones of a public IP address on the Basic SKU and the Global tier -/

namespace Network

/-- The variable `zonesSet` of `resourcePublicIpCreateUpdate` after line 271:
whether `zones` or `availability_zone` is set. -/
def zonesSet (d : ResourceData) : Bool :=
  (d.GetOk "zones").2 || (d.GetOk "availability_zone").2

/-- The variable `zones` of `resourcePublicIpCreateUpdate` after line 271, with
the 3.0 beta feature off: the default, replaced by the expanded `zones` and
then by what `availability_zone` stands for. -/
def resolvedZones (d : ResourceData) (meta : Meta) : List String :=
  let zones0 : List String := ["1", "2"]
  let deprecatedZonesRaw := d.GetOk "zones"
  let zones1 : List String :=
    if deprecatedZonesRaw.2 then
      match meta.ExpandZones deprecatedZonesRaw.1.asStrings with
      | some deprecatedZones => deprecatedZones
      | none => zones0
    else zones0
  let availabilityZones := d.GetOk "availability_zone"
  if availabilityZones.2 then
    if availabilityZones.1.asString = "1" ∨ availabilityZones.1.asString = "2"
        ∨ availabilityZones.1.asString = "3" then [availabilityZones.1.asString]
    else if availabilityZones.1.asString = "Zone-Redundant" then ["1", "2"]
    else if availabilityZones.1.asString = "No-Zone" then []
    else zones1
  else zones1

/-- A Standard address with dynamic allocation that is to be created. -/
def sampleDynamic : ResourceData :=
  { id := "", isNewResource := true,
    attrs := [("name", .str "ip"), ("resource_group_name", .str "rg"),
      ("location", .str "westeurope"), ("allocation_method", .str "Dynamic"),
      ("sku", .str "STANDARD"), ("sku_tier", .str "Regional")],
    timeoutDelete := 5 }

/-- A Basic address without zone settings that is to be created. -/
def sampleBasic : ResourceData :=
  { id := "", isNewResource := true,
    attrs := [("name", .str "ip"), ("resource_group_name", .str "rg"),
      ("location", .str "westeurope"), ("allocation_method", .str "Dynamic"),
      ("sku", .str "Basic"), ("sku_tier", .str "Regional")],
    timeoutDelete := 5 }

/-- A Basic address pinned to zone 1 that is to be created. -/
def sampleBasicZone : ResourceData :=
  { sampleBasic with attrs := ("availability_zone", .str "1") :: sampleBasic.attrs }

end Network

/-! ## Validators of the CDN front door -/

namespace Cdn

/-- The fragment of the regular expressions of Go that the validators use. -/
inductive Regex where
  /-- A literal character. -/
  | lit (c : Char)
  /-- A character class, as the list of its inclusive ranges. -/
  | chars (ranges : List (Char × Char))
  /-- The dot: every character but the line feed. -/
  | anyChar
  /-- The caret: the beginning of the text. -/
  | bol
  /-- The dollar: the end of the text. -/
  | eol
  /-- One expression after the other. -/
  | seq (a b : Regex)
  /-- One expression or the other. -/
  | alt (a b : Regex)
  /-- The bounded repetition with a least and a greatest count. -/
  | rep (a : Regex) (lo hi : Nat)

/-- The sequence of a list of expressions. -/
def Regex.cat : List Regex → Regex
  | [] => .rep (.lit 'x') 0 0
  | [r] => r
  | r :: rs => .seq r (Regex.cat rs)

/-- The bounded repetition of a matching step: between `lo` and `hi` times. -/
def repeatStep (f : Nat × List Char → List (Nat × List Char)) :
    Nat → Nat → Nat × List Char → List (Nat × List Char)
  | lo, 0, st => if lo = 0 then [st] else []
  | lo, hi + 1, st =>
    (if lo = 0 then [st] else []) ++ (f st).flatMap (repeatStep f (lo - 1) hi)

/-- All ways to match the expression at a position: a state is the number of
characters before the position and the characters from it on; the result lists
the states after the match. -/
def Regex.step : Regex → Nat × List Char → List (Nat × List Char)
  | .lit c, st =>
    match st.2 with
    | x :: rest => if x = c then [(st.1 + 1, rest)] else []
    | [] => []
  | .chars ranges, st =>
    match st.2 with
    | x :: rest => if ranges.any (fun r => r.1 ≤ x && x ≤ r.2) then [(st.1 + 1, rest)] else []
    | [] => []
  | .anyChar, st =>
    match st.2 with
    | x :: rest => if x = '\n' then [] else [(st.1 + 1, rest)]
    | [] => []
  | .bol, st => if st.1 = 0 then [st] else []
  | .eol, st => if st.2.isEmpty then [st] else []
  | .seq a b, st => (a.step st).flatMap (fun st' => b.step st')
  | .alt a b, st => a.step st ++ b.step st
  | .rep a lo hi, st => repeatStep (fun st' => a.step st') lo hi st

/-- The call `regexp.MustCompile(r).MatchString(v)`: the expression matches
somewhere in the text. -/
def MatchString (r : Regex) (v : String) : Bool :=
  (List.range (v.data.length + 1)).any (fun i => !(r.step (i, v.data.drop i)).isEmpty)

/-- Modelled from the spec: `validate.RegExHelper` is not under src/; as a
validator of the schema layer it reports whether the value is a string that
matches the pattern, together with the errors of a check that failed. -/
def RegExHelper (i : Value) (k : String) (r : Regex) : Bool × List Err :=
  match i with
  | .str v =>
    if MatchString r v then (true, [])
    else (false, [Err.wrap "%q: regex failed to validate string" [k, v] (Err.msg "no match")])
  | _ => (false, [Err.msg "expected type of %q to be string"])

/-- The class `[a-zA-Z]`. -/
def letter : Regex := .chars [('a', 'z'), ('A', 'Z')]

/-- The class `[\da-zA-Z]`. -/
def letterOrDigit : Regex := .chars [('0', '9'), ('a', 'z'), ('A', 'Z')]

/-- The pattern of `ValidateFrontdoorRuleSetName`,
`(^[a-zA-Z])([\da-zA-Z]{1,88})([a-zA-Z]$)`. -/
def ruleSetNamePattern : Regex :=
  Regex.cat [Regex.cat [.bol, letter], .rep letterOrDigit 1 88, Regex.cat [letter, .eol]]

/-- The class `\d`. -/
def digit : Regex := .chars [('0', '9')]

/-- The class `[012345]`. -/
def digitUpTo5 : Regex :=
  .chars [('0', '0'), ('1', '1'), ('2', '2'), ('3', '3'), ('4', '4'), ('5', '5')]

/-- The pattern of `ValidateFrontdoorCacheDuration`,
`^([0-3]|([1-9][0-9])|([1-3][0-6][0-5])).((?:[01]\d|2[0123]):(?:[012345]\d):(?:[012345]\d))$`. -/
def cacheDurationPattern : Regex :=
  Regex.cat
    [.bol,
     .alt (.chars [('0', '3')])
       (.alt (Regex.cat [.chars [('1', '9')], .chars [('0', '9')]])
         (Regex.cat [.chars [('1', '3')], .chars [('0', '6')], .chars [('0', '5')]])),
     .anyChar,
     Regex.cat
       [.alt (Regex.cat [.chars [('0', '0'), ('1', '1')], digit])
          (Regex.cat [.lit '2', .chars [('0', '0'), ('1', '1'), ('2', '2'), ('3', '3')]]),
        .lit ':',
        Regex.cat [digitUpTo5, digit],
        .lit ':',
        Regex.cat [digitUpTo5, digit]],
     .eol]

/-- The function `IsValidDomain`; the three validators it consults,
`validation.IsIPv6Address`, `validation.IsIPv4Address` and
`validation.StringIsNotEmpty`, are parameters. -/
def IsValidDomain
    (IsIPv6Address IsIPv4Address StringIsNotEmpty : Value → String → List String × List Err)
    (i : Value) (k : String) : List String × List Err :=
  if (IsIPv6Address i k).2.length = 0 then IsIPv6Address i k
  else if (IsIPv4Address i k).2.length = 0 then IsIPv4Address i k
  else if (StringIsNotEmpty i k).2.length = 0 then StringIsNotEmpty i k
  else ([], [])

/-- The function `ValidateFrontdoorRuleSetName`. -/
def ValidateFrontdoorRuleSetName (i : Value) (k : String) : List String × List Err :=
  match i with
  | .str _ =>
    if !(RegExHelper i k ruleSetNamePattern).1 then
      ([], (RegExHelper i k ruleSetNamePattern).2 ++ [Err.msg
        "%q must be between 1 and 90 characters in length and begin with a letter, end with a letter and may contain only letters and numbers, got %q"])
    else ([], [])
  | _ => ([], [Err.msg "expected type of %q to be string"])

/-- The function `ValidateFrontdoorCacheDuration`. -/
def ValidateFrontdoorCacheDuration (i : Value) (k : String) : List String × List Err :=
  match i with
  | .str _ =>
    if !(RegExHelper i k cacheDurationPattern).1 then
      ([], (RegExHelper i k cacheDurationPattern).2 ++ [Err.msg
        "%q must be between in the d.HH:MM:SS format and must be equal to or lower than %q, got %q"])
    else ([], [])
  | _ => ([], [Err.msg "expected type of %q to be string"])

end Cdn

/-! ## Facts about the poller -/

theorem Poll_log {ρ κ : Type} (refresh : List κ → RefreshOut ρ × List κ) (c : κ)
    (hrefresh : ∀ log, (refresh log).2 = log ++ [c])
    (P T : List String) (tr : Err → Bool) (n : Nat) (last : String) (log : List κ) :
    ∃ k, k ≤ n ∧ (Poll refresh P T tr n last log).2 = log ++ List.replicate k c := by
  induction n generalizing last log with
  | zero => exact ⟨0, le_refl _, by simp [Poll]⟩
  | succ n ih =>
    unfold Poll
    simp only
    split
    · obtain ⟨k, hk, hlog⟩ := ih (if (refresh log).1.err.isSome then last else (refresh log).1.state)
        (refresh log).2
      refine ⟨k + 1, by omega, ?_⟩
      rw [hlog, hrefresh, List.replicate_succ]
      simp
    · exact ⟨1, by omega, by simp [hrefresh]⟩
    · exact ⟨1, by omega, by simp [hrefresh]⟩

namespace Policy

theorem refreshFunc_log (meta : Meta) (id : ResourcePolicyRemediationId)
    (mg : ManagementGroupId) (log : List Call) :
    (managementGroupPolicyRemediationCancellationRefreshFunc meta id mg log).2
      = log ++ [Call.GetAtManagementGroup mg.Name id.Name] := by
  unfold managementGroupPolicyRemediationCancellationRefreshFunc
  simp only [callGet]
  split
  · rfl
  · split
    · rfl
    · split <;> rfl

theorem cancellationWait_log (d : ResourceData) (meta : Meta) (id : ResourcePolicyRemediationId)
    (mg : ManagementGroupId) (log : List Call) :
    ∃ k, k ≤ d.TimeoutDelete ∧ (cancellationWait d meta id mg log).2
      = log ++ List.replicate k (Call.GetAtManagementGroup mg.Name id.Name) :=
  Poll_log _ _ (refreshFunc_log meta id mg) _ _ _ _ _ _

theorem countP_snoc_of_false (p : Call → Bool) (log : List Call) (c : Call) (h : p c = false) :
    List.countP p (log ++ [c]) = List.countP p log := by
  simp [List.countP_append, h]

/-- The delete handler when the guard read fails. -/
theorem delete_read_failed (d : ResourceData) (meta : Meta) (log : List Call)
    (id : ResourcePolicyRemediationId) (mg : ManagementGroupId) (e : String)
    (hid : meta.ResourcePolicyRemediationID d.Id = .ok id)
    (hmg : meta.ManagementGroupID id.ResourceId = .ok mg)
    (hget : (meta.RemediationsClient.GetAtManagementGroup (log.countP Call.isGet)
      mg.Name id.Name).2 = some e) :
    resourceArmManagementGroupPolicyRemediationDelete d meta log
      = ⟨if ResponseWasNotFound (meta.RemediationsClient.GetAtManagementGroup
              (log.countP Call.isGet) mg.Name id.Name).1.Response then none
           else some (Err.wrap "retrieving %s: %+v" [meta.Sprint id] (Err.remote e)),
         d, log ++ [Call.GetAtManagementGroup mg.Name id.Name]⟩ := by
  unfold resourceArmManagementGroupPolicyRemediationDelete
  simp only [hid, hmg, callGet, hget, Option.map_some']
  split <;> rfl

/-- The delete handler when the cancel call fails. -/
theorem delete_cancel_failed (d : ResourceData) (meta : Meta) (log : List Call)
    (id : ResourcePolicyRemediationId) (mg : ManagementGroupId) (e : String)
    (hid : meta.ResourcePolicyRemediationID d.Id = .ok id)
    (hmg : meta.ManagementGroupID id.ResourceId = .ok mg)
    (hget : (meta.RemediationsClient.GetAtManagementGroup (log.countP Call.isGet)
      mg.Name id.Name).2 = none)
    (hguard : (meta.RemediationsClient.GetAtManagementGroup (log.countP Call.isGet)
      mg.Name id.Name).1.RemediationProperties.any
        (fun props => props.ResourceDiscoveryMode == ReEvaluateCompliance) = true)
    (hcancel : (meta.RemediationsClient.CancelAtManagementGroup (log.countP Call.isCancel)
      mg.Name id.Name).2 = some e) :
    resourceArmManagementGroupPolicyRemediationDelete d meta log
      = ⟨some (Err.wrap "cancelling %s: %+v" [meta.ID id] (Err.remote e)),
         d, log ++ [Call.GetAtManagementGroup mg.Name id.Name,
            Call.CancelAtManagementGroup mg.Name id.Name]⟩ := by
  unfold resourceArmManagementGroupPolicyRemediationDelete
  simp only [hid, hmg, callGet, hget, hguard, callCancel, Option.map_none', if_true]
  rw [countP_snoc_of_false _ _ _ (by rfl)]
  simp [hcancel]

/-- The delete handler when the cancel call succeeds: the outcome follows the
cancellation wait. -/
theorem delete_after_cancel (d : ResourceData) (meta : Meta) (log : List Call)
    (id : ResourcePolicyRemediationId) (mg : ManagementGroupId)
    (hid : meta.ResourcePolicyRemediationID d.Id = .ok id)
    (hmg : meta.ManagementGroupID id.ResourceId = .ok mg)
    (hget : (meta.RemediationsClient.GetAtManagementGroup (log.countP Call.isGet)
      mg.Name id.Name).2 = none)
    (hguard : (meta.RemediationsClient.GetAtManagementGroup (log.countP Call.isGet)
      mg.Name id.Name).1.RemediationProperties.any
        (fun props => props.ResourceDiscoveryMode == ReEvaluateCompliance) = true)
    (hcancel : (meta.RemediationsClient.CancelAtManagementGroup (log.countP Call.isCancel)
      mg.Name id.Name).2 = none) :
    resourceArmManagementGroupPolicyRemediationDelete d meta log
      = match (cancellationWait d meta id mg (log ++ [Call.GetAtManagementGroup mg.Name id.Name,
            Call.CancelAtManagementGroup mg.Name id.Name])).1.toErr with
        | some err =>
          ⟨some (Err.wrap "waiting for %s to be canceled: %+v" [meta.ID id] err), d,
            (cancellationWait d meta id mg (log ++ [Call.GetAtManagementGroup mg.Name id.Name,
              Call.CancelAtManagementGroup mg.Name id.Name])).2⟩
        | none =>
          ⟨(meta.RemediationsClient.DeleteAtManagementGroup (log.countP Call.isDelete)
              mg.Name id.Name).2.map Err.remote, d,
            (cancellationWait d meta id mg (log ++ [Call.GetAtManagementGroup mg.Name id.Name,
              Call.CancelAtManagementGroup mg.Name id.Name])).2
              ++ [Call.DeleteAtManagementGroup mg.Name id.Name]⟩ := by
  obtain ⟨k, -, hk⟩ := cancellationWait_log d meta id mg
    (log ++ [Call.GetAtManagementGroup mg.Name id.Name,
      Call.CancelAtManagementGroup mg.Name id.Name])
  unfold resourceArmManagementGroupPolicyRemediationDelete
  simp only [hid, hmg, callGet, hget, hguard, callCancel, callDelete, Option.map_none', if_true]
  rw [countP_snoc_of_false _ _ _ (by rfl)]
  simp only [hcancel, Option.map_none', List.append_assoc, List.singleton_append]
  have hcount : List.countP Call.isDelete (cancellationWait d meta id mg
      (log ++ [Call.GetAtManagementGroup mg.Name id.Name,
        Call.CancelAtManagementGroup mg.Name id.Name])).2 = List.countP Call.isDelete log := by
    rw [hk]
    simp [List.countP_append, List.countP_replicate, Call.isDelete]
  simp only [List.append_assoc, List.singleton_append] at hcount
  rw [hcount]

/-- C2: when the guard is required and either the cancel call fails or the
cancellation wait returns an error, the delete handler returns an error and
issues no `DeleteAtManagementGroup`. -/
theorem remediationDelete_guard_failure_blocks_delete (d : ResourceData) (meta : Meta)
    (log : List Call) (id : ResourcePolicyRemediationId) (mg : ManagementGroupId)
    (hid : meta.ResourcePolicyRemediationID d.Id = .ok id)
    (hmg : meta.ManagementGroupID id.ResourceId = .ok mg)
    (hget : (meta.RemediationsClient.GetAtManagementGroup (log.countP Call.isGet)
      mg.Name id.Name).2 = none)
    (hguard : (meta.RemediationsClient.GetAtManagementGroup (log.countP Call.isGet)
      mg.Name id.Name).1.RemediationProperties.any
        (fun props => props.ResourceDiscoveryMode == ReEvaluateCompliance) = true)
    (hfail : (meta.RemediationsClient.CancelAtManagementGroup (log.countP Call.isCancel)
        mg.Name id.Name).2 ≠ none
      ∨ (cancellationWait d meta id mg (log ++ [Call.GetAtManagementGroup mg.Name id.Name,
          Call.CancelAtManagementGroup mg.Name id.Name])).1.toErr ≠ none) :
    (resourceArmManagementGroupPolicyRemediationDelete d meta log).err ≠ none
    ∧ ∀ c ∈ (resourceArmManagementGroupPolicyRemediationDelete d meta log).log.drop log.length,
        c.isDelete = false := by
  obtain ⟨k, -, hk⟩ := cancellationWait_log d meta id mg
    (log ++ [Call.GetAtManagementGroup mg.Name id.Name,
      Call.CancelAtManagementGroup mg.Name id.Name])
  cases hc : (meta.RemediationsClient.CancelAtManagementGroup (List.countP Call.isCancel log)
      mg.Name id.Name).2 with
  | some e =>
    rw [delete_cancel_failed d meta log id mg e hid hmg hget hguard hc]
    simp [Call.isDelete]
  | none =>
    rw [delete_after_cancel d meta log id mg hid hmg hget hguard hc]
    rcases hfail with hfail | hfail
    · exact absurd hc hfail
    · cases hw : (cancellationWait d meta id mg (log ++ [Call.GetAtManagementGroup mg.Name id.Name,
          Call.CancelAtManagementGroup mg.Name id.Name])).1.toErr with
      | none => exact absurd hw hfail
      | some e =>
        simp only [hw]
        rw [hk]
        simp [Call.isDelete]

theorem remediationDelete_guard_failure_blocks_delete_witness :
    (sampleStuck 0).2 = none
    ∧ (resourceArmManagementGroupPolicyRemediationDelete sampleData
        (sampleMeta (sampleClient sampleStuck none none none)) []).err ≠ none
    ∧ ∀ c ∈ (resourceArmManagementGroupPolicyRemediationDelete sampleData
        (sampleMeta (sampleClient sampleStuck none none none)) []).log.drop 0,
        c.isDelete = false :=
  ⟨by decide,
    remediationDelete_guard_failure_blocks_delete sampleData
      (sampleMeta (sampleClient sampleStuck none none none)) []
      { Name := "rem", ResourceId := "group" } { Name := "group" }
      (by rfl) (by rfl) (by decide) (by decide) (Or.inr (by decide))⟩

/-- C3: when the guard read fails, the delete handler issues that read and
no other call, so neither a cancel nor a delete; it returns nil if the response
was a not-found and the wrapped read error otherwise. -/
theorem remediationDelete_guard_read_failure (d : ResourceData) (meta : Meta)
    (log : List Call) (id : ResourcePolicyRemediationId) (mg : ManagementGroupId) (e : String)
    (hid : meta.ResourcePolicyRemediationID d.Id = .ok id)
    (hmg : meta.ManagementGroupID id.ResourceId = .ok mg)
    (hget : (meta.RemediationsClient.GetAtManagementGroup (log.countP Call.isGet)
      mg.Name id.Name).2 = some e) :
    (resourceArmManagementGroupPolicyRemediationDelete d meta log).err
        = (if ResponseWasNotFound (meta.RemediationsClient.GetAtManagementGroup
              (log.countP Call.isGet) mg.Name id.Name).1.Response then none
           else some (Err.wrap "retrieving %s: %+v" [meta.Sprint id] (Err.remote e)))
    ∧ (resourceArmManagementGroupPolicyRemediationDelete d meta log).log.drop log.length
        = [Call.GetAtManagementGroup mg.Name id.Name]
    ∧ (∀ c ∈ (resourceArmManagementGroupPolicyRemediationDelete d meta log).log.drop log.length,
        c.isCancel = false ∧ c.isDelete = false) := by
  rw [delete_read_failed d meta log id mg e hid hmg hget]
  simp [Call.isCancel, Call.isDelete]

theorem remediationDelete_guard_read_failure_witness :
    (sampleFailedGet 404 0).2 = some "request failed"
    ∧ (resourceArmManagementGroupPolicyRemediationDelete sampleData
        (sampleMeta (sampleClient (sampleFailedGet 404) none none none)) []).err = none :=
  ⟨by decide,
    (remediationDelete_guard_read_failure sampleData
      (sampleMeta (sampleClient (sampleFailedGet 404) none none none)) []
      { Name := "rem", ResourceId := "group" } { Name := "group" } "request failed"
      (by rfl) (by rfl) (by decide)).1⟩

end Policy

/-! ## Facts about the read handlers -/

@[simp] theorem ResourceData.Set_id (rejects : String → Value → Bool) (d : ResourceData)
    (key : String) (v : Value) : (d.Set rejects key v).2.id = d.id := by
  unfold ResourceData.Set
  split <;> rfl

namespace Policy

/-- A failed read leaves the tracked ID as it was, never reports an
import-as-exists error, and a read issues at most one call, a
`GetAtManagementGroup`. -/
theorem remediationRead_frame (d : ResourceData) (meta : Meta) (log : List Call) :
    ((resourceArmManagementGroupPolicyRemediationRead d meta log).err ≠ none →
      (resourceArmManagementGroupPolicyRemediationRead d meta log).d.id = d.id)
    ∧ (∀ r i, (resourceArmManagementGroupPolicyRemediationRead d meta log).err
        ≠ some (Err.importAsExists r i))
    ∧ (∃ l, (resourceArmManagementGroupPolicyRemediationRead d meta log).log = log ++ l
        ∧ ∀ c ∈ l, c.isGet = true) := by
  have hone : ∀ (l : List Call) (a b : String), ∃ l', l ++ [Call.GetAtManagementGroup a b] = l ++ l'
      ∧ ∀ c ∈ l', c.isGet = true :=
    fun l a b => ⟨[Call.GetAtManagementGroup a b], by simp [Call.isGet]⟩
  unfold resourceArmManagementGroupPolicyRemediationRead
  split
  · simp
  · split
    · simp
    · simp only [callGet]
      split
      · split <;> simpa using hone log _ _
      · split
        · simpa using hone log _ _
        · split <;> simpa using hone log _ _

theorem remediationRead_log_head (d : ResourceData) (meta : Meta) (log : List Call) (c : Call) :
    ((resourceArmManagementGroupPolicyRemediationRead d meta (log ++ [c])).log.drop
      log.length).head? = some c := by
  obtain ⟨l, hl, -⟩ := (remediationRead_frame d meta (log ++ [c])).2.2
  rw [hl]
  simp

end Policy

namespace Network

theorem FlattenAndSet_id (meta : Meta) (d : ResourceData) (tagMap : List (String × Option String)) :
    (FlattenAndSet meta d tagMap).2.id = d.id := by
  unfold FlattenAndSet
  simp only
  split <;> simp

theorem FlattenAndSet_err (meta : Meta) (d : ResourceData) (tagMap : List (String × Option String))
    (r i : String) : (FlattenAndSet meta d tagMap).1 ≠ some (Err.importAsExists r i) := by
  unfold FlattenAndSet
  simp only
  split <;> simp

/-- A failed read leaves the tracked ID as it was, never reports an
import-as-exists error, and a read issues at most one call, a `Get`. -/
theorem publicIpRead_frame (d : ResourceData) (meta : Meta) (log : List Call) :
    ((resourcePublicIpRead d meta log).err ≠ none → (resourcePublicIpRead d meta log).d.id = d.id)
    ∧ (∀ r i, (resourcePublicIpRead d meta log).err ≠ some (Err.importAsExists r i))
    ∧ (∃ l, (resourcePublicIpRead d meta log).log = log ++ l ∧ ∀ c ∈ l, c.isGet = true) := by
  have hone : ∀ (l : List Call) (a b c : String), ∃ l', l ++ [Call.Get a b c] = l ++ l'
      ∧ ∀ c ∈ l', c.isGet = true :=
    fun l a b c => ⟨[Call.Get a b c], by simp [Call.isGet]⟩
  unfold resourcePublicIpRead
  split
  · simp
  · simp only [callGet]
    split
    · split <;> simpa using hone log _ _ _
    · refine ⟨fun _ => ?_, fun r i => FlattenAndSet_err _ _ _ r i, hone log _ _ _⟩
      rw [FlattenAndSet_id]
      split <;> split <;> split <;> (try split) <;> (try split) <;> simp

theorem publicIpRead_log_head (d : ResourceData) (meta : Meta) (log : List Call) (c c0 : Call) :
    ((resourcePublicIpRead d meta (log ++ [c0] ++ [c])).log.drop log.length).head? = some c0 := by
  obtain ⟨l, hl, -⟩ := (publicIpRead_frame d meta (log ++ [c0] ++ [c])).2.2
  rw [hl]
  simp

end Network

namespace Policy

/-- The remediation create/update handler for a new resource whose existence
check fails with a response that is not a not-found. -/
theorem remediationCreate_check_failed (d : ResourceData) (meta : Meta) (log : List Call)
    (mg : ManagementGroupId) (e : String)
    (hmg : meta.ManagementGroupID (d.Get "management_group_id").asString = .ok mg)
    (hnew : d.IsNewResource = true)
    (hget : (meta.RemediationsClient.GetAtManagementGroup (log.countP Call.isGet) mg.Name
      (d.Get "name").asString).2 = some e)
    (hnf : ResponseWasNotFound (meta.RemediationsClient.GetAtManagementGroup
      (log.countP Call.isGet) mg.Name (d.Get "name").asString).1.Response = false) :
    resourceArmManagementGroupPolicyRemediationCreateUpdate d meta log
      = ⟨some (Err.wrap "checking for presence of existing %s: %+v"
          [meta.ID (NewResourcePolicyRemediationId (d.Get "management_group_id").asString
            (d.Get "name").asString)] (Err.remote e)), d,
         log ++ [Call.GetAtManagementGroup mg.Name (d.Get "name").asString]⟩ := by
  unfold resourceArmManagementGroupPolicyRemediationCreateUpdate checkExisting
  simp only [NewResourcePolicyRemediationId, hmg, hnew, callGet, hget, hnf, if_true,
    Option.map_some']

/-- The remediation create/update handler for a new resource whose existence
check returns a non-empty ID and does not fail with a non-not-found response. -/
theorem remediationCreate_present (d : ResourceData) (meta : Meta) (log : List Call)
    (mg : ManagementGroupId) (existingID : String)
    (hmg : meta.ManagementGroupID (d.Get "management_group_id").asString = .ok mg)
    (hnew : d.IsNewResource = true)
    (hget : (meta.RemediationsClient.GetAtManagementGroup (log.countP Call.isGet) mg.Name
        (d.Get "name").asString).2 = none
      ∨ ResponseWasNotFound (meta.RemediationsClient.GetAtManagementGroup
        (log.countP Call.isGet) mg.Name (d.Get "name").asString).1.Response = true)
    (hid : (meta.RemediationsClient.GetAtManagementGroup (log.countP Call.isGet) mg.Name
      (d.Get "name").asString).1.ID = some existingID)
    (hne : existingID ≠ "") :
    resourceArmManagementGroupPolicyRemediationCreateUpdate d meta log
      = ⟨some (Err.importAsExists "azurerm_management_group_policy_remediation" existingID), d,
         log ++ [Call.GetAtManagementGroup mg.Name (d.Get "name").asString]⟩ := by
  unfold resourceArmManagementGroupPolicyRemediationCreateUpdate checkExisting
  simp only [NewResourcePolicyRemediationId, hmg, hnew, callGet, if_true]
  rcases hget with hget | hget
  · simp [hget, hid, hne]
  · cases hres : (meta.RemediationsClient.GetAtManagementGroup (log.countP Call.isGet) mg.Name
        (d.Get "name").asString).2 <;> simp [hres, hget, hid, hne]

/-- The remediation create/update handler for a resource that is not new:
no import-as-exists error, and the first call, if any, is the mutation. -/
theorem remediationUpdate_no_check (d : ResourceData) (meta : Meta) (log : List Call)
    (hnew : d.IsNewResource = false) :
    (∀ r i, (resourceArmManagementGroupPolicyRemediationCreateUpdate d meta log).err
        ≠ some (Err.importAsExists r i))
    ∧ (∀ c, ((resourceArmManagementGroupPolicyRemediationCreateUpdate d meta log).log.drop
        log.length).head? = some c → c.isCreateOrUpdate = true) := by
  unfold resourceArmManagementGroupPolicyRemediationCreateUpdate checkExisting
  simp only [hnew, callCreateOrUpdate]
  split
  · simp
  · simp only [Bool.false_eq_true, if_false]
    split
    · simp [Call.isCreateOrUpdate]
    · constructor
      · exact (remediationRead_frame _ _ _).2.1
      · intro c hc
        rw [remediationRead_log_head] at hc
        simp only [Option.some.injEq] at hc
        subst hc
        rfl

end Policy

namespace Network

theorem expandPublicIpZones_error (d : ResourceData) (meta : Meta) (sku sku_tier : String)
    (e : Err) (h : expandPublicIpZones d meta sku sku_tier = .error e) : ∃ text, e = Err.msg text := by
  unfold expandPublicIpZones at h
  simp only at h
  generalize (if (d.GetOk "availability_zone").2 = true then _ else _ : List String) = zones2 at h
  split_ifs at h
  all_goals exact ⟨_, (Except.error.inj h).symm⟩

/-- The public IP create/update handler for a new resource whose existence
check returns a response that is not a not-found. -/
theorem publicIpCreate_present (d : ResourceData) (meta : Meta) (log : List Call)
    (hnew : d.IsNewResource = true)
    (hnf : ResponseWasNotFound (meta.PublicIPsClient.Get (log.countP Call.isGet)
      (d.Get "resource_group_name").asString (d.Get "name").asString "").1.Response = false) :
    resourcePublicIpCreateUpdate d meta log
      = ⟨some (match (meta.PublicIPsClient.Get (log.countP Call.isGet)
            (d.Get "resource_group_name").asString (d.Get "name").asString "").2 with
          | some e => Err.wrap "checking for presence of existing %s: %+v"
              [meta.Sprint (NewPublicIpAddressID meta.SubscriptionId
                (d.Get "resource_group_name").asString (d.Get "name").asString)] (Err.remote e)
          | none => Err.importAsExists "azurerm_public_ip"
              (meta.ID (NewPublicIpAddressID meta.SubscriptionId
                (d.Get "resource_group_name").asString (d.Get "name").asString))), d,
         log ++ [Call.Get (d.Get "resource_group_name").asString (d.Get "name").asString ""]⟩ := by
  unfold resourcePublicIpCreateUpdate checkExisting
  simp only [NewPublicIpAddressID, hnew, callGet, hnf, if_true]
  cases hres : (meta.PublicIPsClient.Get (log.countP Call.isGet)
      (d.Get "resource_group_name").asString (d.Get "name").asString "").2 <;> simp

/-- The public IP create/update handler for a resource that is not new: no
import-as-exists error, and the first call, if any, is the mutation. -/
theorem publicIpUpdate_no_check (d : ResourceData) (meta : Meta) (log : List Call)
    (hnew : d.IsNewResource = false) :
    (∀ r i, (resourcePublicIpCreateUpdate d meta log).err ≠ some (Err.importAsExists r i))
    ∧ (∀ c, ((resourcePublicIpCreateUpdate d meta log).log.drop log.length).head? = some c →
        c.isCreateOrUpdate = true) := by
  unfold resourcePublicIpCreateUpdate checkExisting
  simp only [hnew, callCreateOrUpdate, callWait, Bool.false_eq_true, if_false]
  split
  · simp
  · split
    · rename_i e he
      obtain ⟨text, rfl⟩ := expandPublicIpZones_error _ _ _ _ _ he
      simp
    · split
      · simp [Call.isCreateOrUpdate]
      · split
        · simp [Call.isCreateOrUpdate]
        · constructor
          · exact (publicIpRead_frame _ _ _).2.1
          · intro c hc
            rw [publicIpRead_log_head] at hc
            simp only [Option.some.injEq] at hc
            subst hc
            rfl

end Network

/-! ## Create and update -/

/-- C4 (as amended): for a new resource whose existence check answers with a
response that is not a not-found, the public IP handler returns the
import-as-exists error when the read itself succeeded and the
checking-for-presence error when it failed; the remediation handler returns the
import-as-exists error for a non-empty ID unless the read failed with a
response that is not a not-found, in which case it returns the
checking-for-presence error.  In each case the only call is the read (no
create or update) and the resource data, so the ID, is unchanged.  For a
resource that is not new no import-as-exists error is returned and no read
precedes the mutation. -/
theorem createUpdate_existence_check :
    (∀ (d : ResourceData) (meta : Network.Meta) (log : List Network.Call),
      d.IsNewResource = true →
      ResponseWasNotFound (meta.PublicIPsClient.Get (log.countP Network.Call.isGet)
        (d.Get "resource_group_name").asString (d.Get "name").asString "").1.Response = false →
      Network.resourcePublicIpCreateUpdate d meta log
        = ⟨some (match (meta.PublicIPsClient.Get (log.countP Network.Call.isGet)
              (d.Get "resource_group_name").asString (d.Get "name").asString "").2 with
            | some e => Err.wrap "checking for presence of existing %s: %+v"
                [meta.Sprint (Network.NewPublicIpAddressID meta.SubscriptionId
                  (d.Get "resource_group_name").asString (d.Get "name").asString)] (Err.remote e)
            | none => Err.importAsExists "azurerm_public_ip"
                (meta.ID (Network.NewPublicIpAddressID meta.SubscriptionId
                  (d.Get "resource_group_name").asString (d.Get "name").asString))), d,
           log ++ [Network.Call.Get (d.Get "resource_group_name").asString
             (d.Get "name").asString ""]⟩)
    ∧ (∀ (d : ResourceData) (meta : Policy.Meta) (log : List Policy.Call)
        (mg : Policy.ManagementGroupId) (existingID : String),
      meta.ManagementGroupID (d.Get "management_group_id").asString = .ok mg →
      d.IsNewResource = true →
      ((meta.RemediationsClient.GetAtManagementGroup (log.countP Policy.Call.isGet) mg.Name
          (d.Get "name").asString).2 = none
        ∨ ResponseWasNotFound (meta.RemediationsClient.GetAtManagementGroup
          (log.countP Policy.Call.isGet) mg.Name (d.Get "name").asString).1.Response = true) →
      (meta.RemediationsClient.GetAtManagementGroup (log.countP Policy.Call.isGet) mg.Name
        (d.Get "name").asString).1.ID = some existingID →
      existingID ≠ "" →
      Policy.resourceArmManagementGroupPolicyRemediationCreateUpdate d meta log
        = ⟨some (Err.importAsExists "azurerm_management_group_policy_remediation" existingID), d,
           log ++ [Policy.Call.GetAtManagementGroup mg.Name (d.Get "name").asString]⟩)
    ∧ (∀ (d : ResourceData) (meta : Policy.Meta) (log : List Policy.Call)
        (mg : Policy.ManagementGroupId) (e : String),
      meta.ManagementGroupID (d.Get "management_group_id").asString = .ok mg →
      d.IsNewResource = true →
      (meta.RemediationsClient.GetAtManagementGroup (log.countP Policy.Call.isGet) mg.Name
        (d.Get "name").asString).2 = some e →
      ResponseWasNotFound (meta.RemediationsClient.GetAtManagementGroup
        (log.countP Policy.Call.isGet) mg.Name (d.Get "name").asString).1.Response = false →
      Policy.resourceArmManagementGroupPolicyRemediationCreateUpdate d meta log
        = ⟨some (Err.wrap "checking for presence of existing %s: %+v"
            [meta.ID (Policy.NewResourcePolicyRemediationId (d.Get "management_group_id").asString
              (d.Get "name").asString)] (Err.remote e)), d,
           log ++ [Policy.Call.GetAtManagementGroup mg.Name (d.Get "name").asString]⟩)
    ∧ (∀ (d : ResourceData) (meta : Network.Meta) (log : List Network.Call),
      d.IsNewResource = false →
      (∀ r i, (Network.resourcePublicIpCreateUpdate d meta log).err
        ≠ some (Err.importAsExists r i))
      ∧ (∀ c, ((Network.resourcePublicIpCreateUpdate d meta log).log.drop log.length).head?
          = some c → c.isCreateOrUpdate = true))
    ∧ (∀ (d : ResourceData) (meta : Policy.Meta) (log : List Policy.Call),
      d.IsNewResource = false →
      (∀ r i, (Policy.resourceArmManagementGroupPolicyRemediationCreateUpdate d meta log).err
        ≠ some (Err.importAsExists r i))
      ∧ (∀ c, ((Policy.resourceArmManagementGroupPolicyRemediationCreateUpdate d meta log).log.drop
          log.length).head? = some c → c.isCreateOrUpdate = true)) :=
  ⟨fun d meta log hnew hnf => Network.publicIpCreate_present d meta log hnew hnf,
   fun d meta log mg existingID hmg hnew hget hid hne =>
     Policy.remediationCreate_present d meta log mg existingID hmg hnew hget hid hne,
   fun d meta log mg e hmg hnew hget hnf =>
     Policy.remediationCreate_check_failed d meta log mg e hmg hnew hget hnf,
   fun d meta log hnew => Network.publicIpUpdate_no_check d meta log hnew,
   fun d meta log hnew => Policy.remediationUpdate_no_check d meta log hnew⟩

theorem createUpdate_existence_check_witness :
    Network.sampleNew.IsNewResource = true
    ∧ ResponseWasNotFound (Network.samplePublicIp 200).Response = false
    ∧ (Network.resourcePublicIpCreateUpdate Network.sampleNew
        (Network.sampleMeta (Network.sampleClient (fun _ => (Network.samplePublicIp 200, none))
          none none none 200)) []).err
        = some (Err.importAsExists "azurerm_public_ip" "sub/rg/ip") :=
  ⟨by decide, by decide,
    congrArg Network.Outcome.err (createUpdate_existence_check.1 Network.sampleNew
      (Network.sampleMeta (Network.sampleClient (fun _ => (Network.samplePublicIp 200, none))
        none none none 200)) [] (by decide) (by decide))⟩

/-- C4 (counterexample): a new resource whose existence check fails with
status 500, a response that is not a not-found (and, for the remediation, one
that carries a non-empty ID): neither handler returns the import-as-exists
error. -/
theorem createUpdate_failed_check_is_not_import_as_exists :
    (Network.sampleNew.IsNewResource = true
      ∧ ResponseWasNotFound (Network.sampleFailedGet 500 0).1.Response = false
      ∧ ∀ r i, (Network.resourcePublicIpCreateUpdate Network.sampleNew
          (Network.sampleMeta (Network.sampleClient (Network.sampleFailedGet 500)
            none none none 200)) []).err ≠ some (Err.importAsExists r i))
    ∧ (Policy.sampleNew.IsNewResource = true
      ∧ (Policy.sampleFailedGetWithID 500 0).1.ID = some "group/remediations/rem"
      ∧ ∀ r i, (Policy.resourceArmManagementGroupPolicyRemediationCreateUpdate Policy.sampleNew
          (Policy.sampleMeta (Policy.sampleClient (Policy.sampleFailedGetWithID 500)
            none none none)) []).err ≠ some (Err.importAsExists r i)) := by
  refine ⟨⟨by decide, by decide, ?_⟩, ⟨by decide, by decide, ?_⟩⟩
  · intro r i
    have h : (Network.resourcePublicIpCreateUpdate Network.sampleNew
          (Network.sampleMeta (Network.sampleClient (Network.sampleFailedGet 500)
            none none none 200)) []).err
        = some (Err.wrap "checking for presence of existing %s: %+v" ["rg/ip"]
            (Err.remote "request failed")) := by decide
    rw [h]
    simp
  · intro r i
    have h : (Policy.resourceArmManagementGroupPolicyRemediationCreateUpdate Policy.sampleNew
          (Policy.sampleMeta (Policy.sampleClient (Policy.sampleFailedGetWithID 500)
            none none none)) []).err
        = some (Err.wrap "checking for presence of existing %s: %+v" ["group/remediations/rem"]
            (Err.remote "request failed")) := by decide
    rw [h]
    simp

namespace Policy

theorem checkExisting_log (d : ResourceData) (meta : Meta) (id : ResourcePolicyRemediationId)
    (mg : ManagementGroupId) (log : List Call) :
    ∃ l, (checkExisting d meta id mg log).2 = log ++ l ∧ ∀ c ∈ l, c.isGet = true := by
  have hone : ∃ l, log ++ [Call.GetAtManagementGroup mg.Name id.Name] = log ++ l
      ∧ ∀ c ∈ l, c.isGet = true := ⟨[Call.GetAtManagementGroup mg.Name id.Name], by simp [Call.isGet]⟩
  unfold checkExisting
  simp only [callGet]
  split
  · split
    · exact hone
    · split
      · split <;> exact hone
      · exact hone
  · exact ⟨[], by simp⟩

theorem countP_append_gets (p : Call → Bool) (hp : ∀ c, c.isGet = true → p c = false)
    (log l : List Call) (hl : ∀ c ∈ l, c.isGet = true) :
    List.countP p (log ++ l) = List.countP p log := by
  rw [List.countP_append]
  have : List.countP p l = 0 := by
    rw [List.countP_eq_zero]
    intro c hc
    simp [hp c (hl c hc)]
  omega

/-- A failed run of the remediation create/update handler: the resource data
is unchanged, or the mutation succeeded and the ID is the new identity. -/
theorem remediationCreateUpdate_failure (d : ResourceData) (meta : Meta) (log : List Call)
    (hfail : (resourceArmManagementGroupPolicyRemediationCreateUpdate d meta log).err ≠ none) :
    (resourceArmManagementGroupPolicyRemediationCreateUpdate d meta log).d = d
    ∨ ((resourceArmManagementGroupPolicyRemediationCreateUpdate d meta log).d.id
          = meta.ID (NewResourcePolicyRemediationId (d.Get "management_group_id").asString
              (d.Get "name").asString)
        ∧ ∃ mg p, Call.CreateOrUpdateAtManagementGroup mg (d.Get "name").asString p
            ∈ (resourceArmManagementGroupPolicyRemediationCreateUpdate d meta log).log.drop
                log.length
          ∧ (meta.RemediationsClient.CreateOrUpdateAtManagementGroup
              (log.countP Call.isCreateOrUpdate) mg (d.Get "name").asString p).2 = none) := by
  unfold resourceArmManagementGroupPolicyRemediationCreateUpdate at hfail ⊢
  simp only [callCreateOrUpdate] at hfail ⊢
  split at hfail
  · left; simp_all
  · rename_i mg hmg
    obtain ⟨l, hl, hgets⟩ := checkExisting_log d meta (NewResourcePolicyRemediationId
      (d.Get "management_group_id").asString (d.Get "name").asString) mg log
    rw [hl] at hfail
    try simp only [hmg]
    rw [hl]
    rw [countP_append_gets Call.isCreateOrUpdate (by intro c; cases c <;> simp [Call.isGet, Call.isCreateOrUpdate]) log l hgets] at hfail ⊢
    split at hfail
    · rename_i err herr
      left
      try simp only [herr]
    · rename_i hnone
      try simp only [hnone] at hfail ⊢
      cases hcreated : (meta.RemediationsClient.CreateOrUpdateAtManagementGroup
          (List.countP Call.isCreateOrUpdate log) mg.Name
          (NewResourcePolicyRemediationId (d.Get "management_group_id").asString
            (d.Get "name").asString).Name
          { Response := { StatusCode := none }, ID := none,
            RemediationProperties := some
              { Filters := some { Locations := some (d.Get "location_filters").asStrings },
                PolicyAssignmentID := some (d.Get "policy_assignment_id").asString,
                PolicyDefinitionReferenceID := some (d.Get "policy_definition_id").asString,
                ResourceDiscoveryMode := (d.Get "resource_discovery_mode").asString,
                ProvisioningState := none } }).2 with
      | some e => left; simp [hcreated]
      | none =>
        simp only [hcreated, Option.map_none'] at hfail ⊢
        right
        obtain ⟨hid, -, l', hlog, -⟩ := remediationRead_frame (d.SetId (meta.ID
          (NewResourcePolicyRemediationId (d.Get "management_group_id").asString
            (d.Get "name").asString))) meta (log ++ l ++ [Call.CreateOrUpdateAtManagementGroup mg.Name
          (NewResourcePolicyRemediationId (d.Get "management_group_id").asString
            (d.Get "name").asString).Name
          { Response := { StatusCode := none }, ID := none,
            RemediationProperties := some
              { Filters := some { Locations := some (d.Get "location_filters").asStrings },
                PolicyAssignmentID := some (d.Get "policy_assignment_id").asString,
                PolicyDefinitionReferenceID := some (d.Get "policy_definition_id").asString,
                ResourceDiscoveryMode := (d.Get "resource_discovery_mode").asString,
                ProvisioningState := none } }])
        refine ⟨by rw [hid hfail]; rfl, mg.Name, _, ?_, hcreated⟩
        rw [hlog]
        simp [NewResourcePolicyRemediationId]

end Policy

namespace Network

theorem checkExisting_gets (d : ResourceData) (meta : Meta) (id : PublicIpAddressId)
    (log : List Call) :
    ∃ l, (checkExisting d meta id log).2 = log ++ l ∧ ∀ c ∈ l, c.isGet = true := by
  have hone : ∃ l, log ++ [Call.Get id.ResourceGroup id.Name ""] = log ++ l
      ∧ ∀ c ∈ l, c.isGet = true := ⟨[Call.Get id.ResourceGroup id.Name ""], by simp [Call.isGet]⟩
  unfold checkExisting
  simp only [callGet]
  split
  · split <;> exact hone
  · exact ⟨[], by simp⟩

theorem countP_isWait_snoc_createOrUpdate (log : List Call) (rg name : String)
    (p : PublicIPAddress) :
    List.countP Call.isWait (log ++ [Call.CreateOrUpdate rg name p]) = List.countP Call.isWait log := by
  simp [List.countP_append, Call.isWait]

theorem countP_append_of_gets (p : Call → Bool) (hp : ∀ c, c.isGet = true → p c = false)
    (log l : List Call) (hl : ∀ c ∈ l, c.isGet = true) :
    List.countP p (log ++ l) = List.countP p log := by
  rw [List.countP_append]
  have : List.countP p l = 0 := by
    rw [List.countP_eq_zero]
    intro c hc
    simp [hp c (hl c hc)]
  omega

/-- A failed run of the public IP create/update handler: the resource data is
unchanged, or the mutation and the wait on its future succeeded and the ID is
the new identity. -/
theorem publicIpCreateUpdate_failure (d : ResourceData) (meta : Meta) (log : List Call)
    (hfail : (resourcePublicIpCreateUpdate d meta log).err ≠ none) :
    (resourcePublicIpCreateUpdate d meta log).d = d
    ∨ ((resourcePublicIpCreateUpdate d meta log).d.id
          = meta.ID (NewPublicIpAddressID meta.SubscriptionId
              (d.Get "resource_group_name").asString (d.Get "name").asString)
        ∧ ∃ p, Call.CreateOrUpdate (d.Get "resource_group_name").asString
              (d.Get "name").asString p
            ∈ (resourcePublicIpCreateUpdate d meta log).log.drop log.length
          ∧ (meta.PublicIPsClient.CreateOrUpdate (log.countP Call.isCreateOrUpdate)
              (d.Get "resource_group_name").asString (d.Get "name").asString p).2 = none
          ∧ meta.PublicIPsClient.WaitForCompletionRef (log.countP Call.isWait)
              (meta.PublicIPsClient.CreateOrUpdate (log.countP Call.isCreateOrUpdate)
                (d.Get "resource_group_name").asString (d.Get "name").asString p).1 = none) := by
  obtain ⟨l, hl, hgets⟩ := checkExisting_gets d meta (NewPublicIpAddressID meta.SubscriptionId
    (d.Get "resource_group_name").asString (d.Get "name").asString) log
  have hc1 := countP_append_of_gets Call.isCreateOrUpdate
    (by intro c; cases c <;> simp [Call.isGet, Call.isCreateOrUpdate]) log l hgets
  have hc2 := countP_append_of_gets Call.isWait
    (by intro c; cases c <;> simp [Call.isGet, Call.isWait]) log l hgets
  unfold resourcePublicIpCreateUpdate at hfail ⊢
  simp only [callCreateOrUpdate, callWait, hl, countP_isWait_snoc_createOrUpdate, hc1, hc2]
    at hfail ⊢
  split at hfail
  · left; simp_all
  · rename_i hchecked
    try simp only [hchecked]
    split at hfail
    · left; simp_all
    · rename_i hsku
      try simp only [hsku, Bool.false_eq_true, if_false]
      split at hfail
      · left; simp_all
      · rename_i zones hzones
        try simp only [hzones]
        generalize publicIpParameters d meta _ zones = p at hfail ⊢
        cases hcreated : (meta.PublicIPsClient.CreateOrUpdate (List.countP Call.isCreateOrUpdate log)
            (NewPublicIpAddressID meta.SubscriptionId (d.Get "resource_group_name").asString
              (d.Get "name").asString).ResourceGroup
            (NewPublicIpAddressID meta.SubscriptionId (d.Get "resource_group_name").asString
              (d.Get "name").asString).Name p).2 with
        | some e => left; simp [hcreated]
        | none =>
          simp only [hcreated, Option.map_none'] at hfail ⊢
          cases hwaited : meta.PublicIPsClient.WaitForCompletionRef (List.countP Call.isWait log)
            (meta.PublicIPsClient.CreateOrUpdate (List.countP Call.isCreateOrUpdate log)
              (NewPublicIpAddressID meta.SubscriptionId (d.Get "resource_group_name").asString
                (d.Get "name").asString).ResourceGroup
              (NewPublicIpAddressID meta.SubscriptionId (d.Get "resource_group_name").asString
                (d.Get "name").asString).Name p).1 with
          | some e => left; simp [hwaited]
          | none =>
            simp only [hwaited, Option.map_none'] at hfail ⊢
            right
            obtain ⟨hid, -, l', hlog, -⟩ := publicIpRead_frame (d.SetId (meta.ID
              (NewPublicIpAddressID meta.SubscriptionId (d.Get "resource_group_name").asString
                (d.Get "name").asString))) meta
              (log ++ l ++ [Call.CreateOrUpdate
                (NewPublicIpAddressID meta.SubscriptionId (d.Get "resource_group_name").asString
                  (d.Get "name").asString).ResourceGroup
                (NewPublicIpAddressID meta.SubscriptionId (d.Get "resource_group_name").asString
                  (d.Get "name").asString).Name p] ++
                [Call.WaitForCompletionRef (meta.PublicIPsClient.CreateOrUpdate
                  (List.countP Call.isCreateOrUpdate log)
                  (NewPublicIpAddressID meta.SubscriptionId (d.Get "resource_group_name").asString
                    (d.Get "name").asString).ResourceGroup
                  (NewPublicIpAddressID meta.SubscriptionId (d.Get "resource_group_name").asString
                    (d.Get "name").asString).Name p).1])
            refine ⟨by rw [hid hfail]; rfl, p, ?_, hcreated, hwaited⟩
            rw [hlog]
            simp [NewPublicIpAddressID]

end Network

/-! ## Read -/

/-- C6: in both read handlers, when the ID parses and the remote read fails,
a not-found response makes the handler return nil with the tracked ID set to
the empty string and every attribute as before, and any other response makes
it return the wrapped error with the resource data, so the tracked ID,
unchanged; the read is the only call. -/
theorem read_failed_get :
    (∀ (d : ResourceData) (meta : Network.Meta) (log : List Network.Call)
        (id : Network.PublicIpAddressId) (e : String),
      meta.PublicIpAddressID d.Id = .ok id →
      (meta.PublicIPsClient.Get (log.countP Network.Call.isGet) id.ResourceGroup id.Name "").2
        = some e →
      Network.resourcePublicIpRead d meta log
        = (if ResponseWasNotFound (meta.PublicIPsClient.Get (log.countP Network.Call.isGet)
              id.ResourceGroup id.Name "").1.Response
           then ⟨none, { d with id := "" }, log ++ [Network.Call.Get id.ResourceGroup id.Name ""]⟩
           else ⟨some (Err.wrap "retrieving %s: %+v" [meta.Sprint id] (Err.remote e)), d,
             log ++ [Network.Call.Get id.ResourceGroup id.Name ""]⟩))
    ∧ (∀ (d : ResourceData) (meta : Policy.Meta) (log : List Policy.Call)
        (id : Policy.ResourcePolicyRemediationId) (mg : Policy.ManagementGroupId) (e : String),
      meta.ResourcePolicyRemediationID d.Id = .ok id →
      meta.ManagementGroupID id.ResourceId = .ok mg →
      (meta.RemediationsClient.GetAtManagementGroup (log.countP Policy.Call.isGet)
        mg.Name id.Name).2 = some e →
      Policy.resourceArmManagementGroupPolicyRemediationRead d meta log
        = (if ResponseWasNotFound (meta.RemediationsClient.GetAtManagementGroup
              (log.countP Policy.Call.isGet) mg.Name id.Name).1.Response
           then ⟨none, { d with id := "" },
             log ++ [Policy.Call.GetAtManagementGroup mg.Name id.Name]⟩
           else ⟨some (Err.wrap "reading %s: %+v" [meta.ID id] (Err.remote e)), d,
             log ++ [Policy.Call.GetAtManagementGroup mg.Name id.Name]⟩)) := by
  constructor
  · intro d meta log id e hid hget
    unfold Network.resourcePublicIpRead
    simp only [hid, Network.callGet, hget, Option.map_some']
    split <;> rfl
  · intro d meta log id mg e hid hmg hget
    unfold Policy.resourceArmManagementGroupPolicyRemediationRead
    simp only [hid, hmg, Policy.callGet, hget, Option.map_some']
    split <;> rfl

theorem read_failed_get_witness :
    (Network.sampleFailedGet 404 0).2 = some "request failed"
    ∧ Network.resourcePublicIpRead Network.sampleTracked
        (Network.sampleMeta (Network.sampleClient (Network.sampleFailedGet 404) none none none 200))
        []
      = ⟨none, { Network.sampleTracked with id := "" }, [Network.Call.Get "rg" "ip" ""]⟩ :=
  ⟨by decide,
    read_failed_get.1 Network.sampleTracked
      (Network.sampleMeta (Network.sampleClient (Network.sampleFailedGet 404) none none none 200))
      [] { SubscriptionId := "sub", ResourceGroup := "rg", Name := "ip" } "request failed"
      (by rfl) (by decide)⟩

/-! ## Delete -/

/-- The public IP delete handler on an ID that parses: the error it returns,
when it returns none, and two deletes in a row. -/
theorem publicIpDelete_of_parsed (d : ResourceData) (meta : Network.Meta)
    (log : List Network.Call) (id : Network.PublicIpAddressId)
    (hid : meta.PublicIpAddressID d.Id = .ok id) :
    (Network.resourcePublicIpDelete d meta log).err
        = (match (meta.PublicIPsClient.Delete (log.countP Network.Call.isDelete)
              id.ResourceGroup id.Name).2 with
          | some e => some (Err.wrap "deleting %s: %+v" [meta.Sprint id] (Err.remote e))
          | none =>
            match meta.PublicIPsClient.WaitForCompletionRef (log.countP Network.Call.isWait)
              (meta.PublicIPsClient.Delete (log.countP Network.Call.isDelete)
                id.ResourceGroup id.Name).1 with
            | some e =>
              some (Err.wrap "waiting for deletion of %s: %+v" [meta.Sprint id] (Err.remote e))
            | none => none)
    ∧ ((Network.resourcePublicIpDelete d meta log).err = none ↔
        (meta.PublicIPsClient.Delete (log.countP Network.Call.isDelete)
          id.ResourceGroup id.Name).2 = none
        ∧ meta.PublicIPsClient.WaitForCompletionRef (log.countP Network.Call.isWait)
            (meta.PublicIPsClient.Delete (log.countP Network.Call.isDelete)
              id.ResourceGroup id.Name).1 = none)
    ∧ ((meta.PublicIPsClient.Delete (log.countP Network.Call.isDelete)
          id.ResourceGroup id.Name).2 = none →
        meta.PublicIPsClient.WaitForCompletionRef (log.countP Network.Call.isWait)
          (meta.PublicIPsClient.Delete (log.countP Network.Call.isDelete)
            id.ResourceGroup id.Name).1 = none →
        (meta.PublicIPsClient.Delete (log.countP Network.Call.isDelete + 1)
          id.ResourceGroup id.Name).2 = none →
        meta.PublicIPsClient.WaitForCompletionRef (log.countP Network.Call.isWait + 1)
          (meta.PublicIPsClient.Delete (log.countP Network.Call.isDelete + 1)
            id.ResourceGroup id.Name).1 = none →
        (Network.resourcePublicIpDelete d meta log).err = none
        ∧ (Network.resourcePublicIpDelete (Network.resourcePublicIpDelete d meta log).d meta
            (Network.resourcePublicIpDelete d meta log).log).err = none) := by
  have hfirst : ∀ (log : List Network.Call), (Network.resourcePublicIpDelete d meta log).err
        = (match (meta.PublicIPsClient.Delete (log.countP Network.Call.isDelete)
              id.ResourceGroup id.Name).2 with
          | some e => some (Err.wrap "deleting %s: %+v" [meta.Sprint id] (Err.remote e))
          | none =>
            match meta.PublicIPsClient.WaitForCompletionRef (log.countP Network.Call.isWait)
              (meta.PublicIPsClient.Delete (log.countP Network.Call.isDelete)
                id.ResourceGroup id.Name).1 with
            | some e =>
              some (Err.wrap "waiting for deletion of %s: %+v" [meta.Sprint id] (Err.remote e))
            | none => none) := by
    intro log
    unfold Network.resourcePublicIpDelete
    simp only [hid, Network.callDelete, Network.callWait]
    cases hdel : (meta.PublicIPsClient.Delete (log.countP Network.Call.isDelete)
        id.ResourceGroup id.Name).2 with
    | some e => simp
    | none =>
      simp only [Option.map_none']
      have hcount : List.countP Network.Call.isWait
          (log ++ [Network.Call.Delete id.ResourceGroup id.Name])
          = List.countP Network.Call.isWait log := by
        simp [List.countP_append, Network.Call.isWait]
      rw [hcount]
      cases hwait : meta.PublicIPsClient.WaitForCompletionRef (log.countP Network.Call.isWait)
        (meta.PublicIPsClient.Delete (log.countP Network.Call.isDelete)
          id.ResourceGroup id.Name).1 <;> simp
  refine ⟨hfirst log, ?_, ?_⟩
  · rw [hfirst log]
    cases hdel : (meta.PublicIPsClient.Delete (log.countP Network.Call.isDelete)
        id.ResourceGroup id.Name).2 with
    | some e => simp
    | none =>
      cases hwait : meta.PublicIPsClient.WaitForCompletionRef (log.countP Network.Call.isWait)
        (meta.PublicIPsClient.Delete (log.countP Network.Call.isDelete)
          id.ResourceGroup id.Name).1 <;> simp
  · intro h1 h2 h3 h4
    have hout : Network.resourcePublicIpDelete d meta log
        = ⟨none, d, log ++ [Network.Call.Delete id.ResourceGroup id.Name,
            Network.Call.WaitForCompletionRef (meta.PublicIPsClient.Delete
              (log.countP Network.Call.isDelete) id.ResourceGroup id.Name).1]⟩ := by
      unfold Network.resourcePublicIpDelete
      simp only [hid, Network.callDelete, Network.callWait, h1, Option.map_none']
      have hcount : List.countP Network.Call.isWait
          (log ++ [Network.Call.Delete id.ResourceGroup id.Name])
          = List.countP Network.Call.isWait log := by
        simp [List.countP_append, Network.Call.isWait]
      rw [hcount, h2]
      simp
    rw [hout]
    refine ⟨rfl, ?_⟩
    rw [hfirst]
    simp [List.countP_append, Network.Call.isWait, Network.Call.isDelete, h3, h4]

/-- C7 (as amended): the public IP delete handler returns nil exactly when
the ID parses and the remote delete call and the wait on its future both
return no error.  An ID that does not parse gives the parse error and no
remote call; an error of the delete call is returned wrapped as `deleting`, an
error of the wait wrapped as `waiting for deletion of`, whatever the status of
the response, a not-found included.  Two deletes in a row both succeed when the
remote answers both delete calls and both waits without an error. -/
theorem publicIpDelete_success_iff (d : ResourceData) (meta : Network.Meta)
    (log : List Network.Call) :
    (∀ e, meta.PublicIpAddressID d.Id = .error e →
      Network.resourcePublicIpDelete d meta log = ⟨some (Err.parse e), d, log⟩)
    ∧ (∀ id, meta.PublicIpAddressID d.Id = .ok id →
      (Network.resourcePublicIpDelete d meta log).err
        = (match (meta.PublicIPsClient.Delete (log.countP Network.Call.isDelete)
              id.ResourceGroup id.Name).2 with
          | some e => some (Err.wrap "deleting %s: %+v" [meta.Sprint id] (Err.remote e))
          | none =>
            match meta.PublicIPsClient.WaitForCompletionRef (log.countP Network.Call.isWait)
              (meta.PublicIPsClient.Delete (log.countP Network.Call.isDelete)
                id.ResourceGroup id.Name).1 with
            | some e =>
              some (Err.wrap "waiting for deletion of %s: %+v" [meta.Sprint id] (Err.remote e))
            | none => none))
    ∧ ((Network.resourcePublicIpDelete d meta log).err = none ↔
        ∃ id, meta.PublicIpAddressID d.Id = .ok id
          ∧ (meta.PublicIPsClient.Delete (log.countP Network.Call.isDelete)
              id.ResourceGroup id.Name).2 = none
          ∧ meta.PublicIPsClient.WaitForCompletionRef (log.countP Network.Call.isWait)
              (meta.PublicIPsClient.Delete (log.countP Network.Call.isDelete)
                id.ResourceGroup id.Name).1 = none)
    ∧ (∀ id, meta.PublicIpAddressID d.Id = .ok id →
        (meta.PublicIPsClient.Delete (log.countP Network.Call.isDelete)
          id.ResourceGroup id.Name).2 = none →
        meta.PublicIPsClient.WaitForCompletionRef (log.countP Network.Call.isWait)
          (meta.PublicIPsClient.Delete (log.countP Network.Call.isDelete)
            id.ResourceGroup id.Name).1 = none →
        (meta.PublicIPsClient.Delete (log.countP Network.Call.isDelete + 1)
          id.ResourceGroup id.Name).2 = none →
        meta.PublicIPsClient.WaitForCompletionRef (log.countP Network.Call.isWait + 1)
          (meta.PublicIPsClient.Delete (log.countP Network.Call.isDelete + 1)
            id.ResourceGroup id.Name).1 = none →
        (Network.resourcePublicIpDelete d meta log).err = none
        ∧ (Network.resourcePublicIpDelete (Network.resourcePublicIpDelete d meta log).d meta
            (Network.resourcePublicIpDelete d meta log).log).err = none) := by
  refine ⟨fun e he => ?_, fun id hid => (publicIpDelete_of_parsed d meta log id hid).1, ?_,
    fun id hid => (publicIpDelete_of_parsed d meta log id hid).2.2⟩
  · unfold Network.resourcePublicIpDelete
    simp only [he]
  · cases hparse : meta.PublicIpAddressID d.Id with
    | error e =>
      unfold Network.resourcePublicIpDelete
      simp [hparse]
    | ok id =>
      rw [(publicIpDelete_of_parsed d meta log id hparse).2.1]
      constructor
      · intro h
        exact ⟨id, rfl, h⟩
      · rintro ⟨id', hid', h⟩
        simp only [Except.ok.injEq] at hid'
        subst hid'
        exact h

theorem publicIpDelete_success_iff_witness :
    (Network.resourcePublicIpDelete Network.sampleTracked
      (Network.sampleMeta (Network.sampleClient (Network.sampleFailedGet 404) none none none 204))
      []).err = none
    ∧ Network.resourcePublicIpDelete Network.sampleNew
      (Network.sampleMeta (Network.sampleClient (Network.sampleFailedGet 404) none none none 204))
      [] = ⟨some (Err.parse "empty ID"), Network.sampleNew, []⟩ :=
  ⟨((publicIpDelete_success_iff Network.sampleTracked
      (Network.sampleMeta (Network.sampleClient (Network.sampleFailedGet 404) none none none 204))
      []).2.2.1).mpr
      ⟨{ SubscriptionId := "sub", ResourceGroup := "rg", Name := "ip" }, by rfl, by decide,
        by decide⟩,
    (publicIpDelete_success_iff Network.sampleNew
      (Network.sampleMeta (Network.sampleClient (Network.sampleFailedGet 404) none none none 204))
      []).1 "empty ID" (by rfl)⟩

/-- C7 (counterexample): the remote resource is absent and the delete call,
or the wait on the future, reports the not-found as an error: the handler
returns an error. -/
theorem publicIpDelete_not_found_is_an_error :
    (ResponseWasNotFound ((Network.sampleClient (Network.sampleFailedGet 404) none none
        (some "ResourceNotFound") 404).Delete 0 "rg" "ip").1.Response = true
      ∧ (Network.resourcePublicIpDelete Network.sampleTracked
          (Network.sampleMeta (Network.sampleClient (Network.sampleFailedGet 404) none none
            (some "ResourceNotFound") 404)) []).err
          = some (Err.wrap "deleting %s: %+v" ["rg/ip"] (Err.remote "ResourceNotFound")))
    ∧ (ResponseWasNotFound ((Network.sampleClient (Network.sampleFailedGet 404) none
        (some "ResourceNotFound") none 404).Delete 0 "rg" "ip").1.Response = true
      ∧ (Network.resourcePublicIpDelete Network.sampleTracked
          (Network.sampleMeta (Network.sampleClient (Network.sampleFailedGet 404) none
            (some "ResourceNotFound") none 404)) []).err
          = some (Err.wrap "waiting for deletion of %s: %+v" ["rg/ip"]
              (Err.remote "ResourceNotFound"))) := by
  decide

/-- C8: a failed run of a delete handler leaves the resource data, so the
tracked ID and every attribute, as it was before the call. -/
theorem delete_failure_keeps_resource_data :
    (∀ (d : ResourceData) (meta : Network.Meta) (log : List Network.Call),
      (Network.resourcePublicIpDelete d meta log).err ≠ none →
      (Network.resourcePublicIpDelete d meta log).d = d)
    ∧ (∀ (d : ResourceData) (meta : Policy.Meta) (log : List Policy.Call),
      (Policy.resourceArmManagementGroupPolicyRemediationDelete d meta log).err ≠ none →
      (Policy.resourceArmManagementGroupPolicyRemediationDelete d meta log).d = d) := by
  constructor
  · intro d meta log _
    unfold Network.resourcePublicIpDelete
    split
    · rfl
    · simp only
      split
      · rfl
      · split <;> rfl
  · intro d meta log _
    unfold Policy.resourceArmManagementGroupPolicyRemediationDelete
    split
    · rfl
    · split
      · rfl
      · simp only
        split
        · split <;> rfl
        · split
          · split
            · rfl
            · split <;> rfl
          · rfl

theorem delete_failure_keeps_resource_data_witness :
    (Policy.resourceArmManagementGroupPolicyRemediationDelete Policy.sampleData
      (Policy.sampleMeta (Policy.sampleClient Policy.sampleStuck none none none)) []).err ≠ none
    ∧ (Policy.resourceArmManagementGroupPolicyRemediationDelete Policy.sampleData
      (Policy.sampleMeta (Policy.sampleClient Policy.sampleStuck none none none)) []).d
        = Policy.sampleData :=
  ⟨by decide,
    delete_failure_keeps_resource_data.2 Policy.sampleData
      (Policy.sampleMeta (Policy.sampleClient Policy.sampleStuck none none none)) []
      (by decide)⟩

namespace Policy

theorem refreshFunc_of_reportedState (meta : Meta) (id : ResourcePolicyRemediationId)
    (mg : ManagementGroupId) (log : List Call) (state : String)
    (h : reportedState (meta.RemediationsClient.GetAtManagementGroup (log.countP Call.isGet)
      mg.Name id.Name) = some state) :
    managementGroupPolicyRemediationCancellationRefreshFunc meta id mg log
      = ({ result := some (meta.RemediationsClient.GetAtManagementGroup (log.countP Call.isGet)
            mg.Name id.Name).1, state := state, err := none },
         log ++ [Call.GetAtManagementGroup mg.Name id.Name]) := by
  unfold reportedState at h
  unfold managementGroupPolicyRemediationCancellationRefreshFunc
  simp only [callGet]
  cases hres : (meta.RemediationsClient.GetAtManagementGroup (log.countP Call.isGet)
      mg.Name id.Name).2 with
  | some e => simp [hres] at h
  | none =>
    simp only [hres] at h
    simp only [Option.map_none']
    cases hprops : (meta.RemediationsClient.GetAtManagementGroup (log.countP Call.isGet)
        mg.Name id.Name).1.RemediationProperties with
    | none => simp [hprops] at h
    | some props =>
      simp only [hprops, Option.some_bind] at h
      simp only [h]

/-- The wait of the delete handler on a stream of provisioning states that is
`Cancelling` for the first `k` status queries and then a phase outside both
sets: it ends with the unknown-phase error after `k + 1` queries. -/
theorem cancellationWait_unknownPhase (meta : Meta) (id : ResourcePolicyRemediationId)
    (mg : ManagementGroupId) (p : String)
    (hp : p ∉ ["Cancelling"]) (ht : p ∉ ["Succeeded", "Canceled", "Failed"]) :
    ∀ (k timeout : Nat) (last : String) (log : List Call),
      k < timeout →
      (∀ j, j < k → reportedState (meta.RemediationsClient.GetAtManagementGroup
        (log.countP Call.isGet + j) mg.Name id.Name) = some "Cancelling") →
      reportedState (meta.RemediationsClient.GetAtManagementGroup
        (log.countP Call.isGet + k) mg.Name id.Name) = some p →
      Poll (managementGroupPolicyRemediationCancellationRefreshFunc meta id mg)
          ["Cancelling"] ["Succeeded", "Canceled", "Failed"] meta.IsTransient timeout last log
        = (PollResult.Error (Err.unknownPhase p),
           log ++ List.replicate (k + 1) (Call.GetAtManagementGroup mg.Name id.Name)) := by
  intro k
  induction k with
  | zero =>
    intro timeout last log hlt _ hk
    obtain ⟨n, rfl⟩ : ∃ n, timeout = n + 1 := ⟨timeout - 1, by omega⟩
    unfold Poll
    simp only [Nat.add_zero] at hk
    rw [refreshFunc_of_reportedState meta id mg log p hk]
    have hatt : pollAttempt ["Cancelling"] ["Succeeded", "Canceled", "Failed"] meta.IsTransient
        ({ result := some (meta.RemediationsClient.GetAtManagementGroup (log.countP Call.isGet)
            mg.Name id.Name).1, state := p, err := none } : RefreshOut Remediation)
        = PollResult.Error (Err.unknownPhase p) := by
      unfold pollAttempt
      simp only [if_neg ht, if_neg hp]
    simp only [hatt]
    simp
  | succ k ih =>
    intro timeout last log hlt hpend hk
    obtain ⟨n, rfl⟩ : ∃ n, timeout = n + 1 := ⟨timeout - 1, by omega⟩
    unfold Poll
    have h0 := hpend 0 (by omega)
    simp only [Nat.add_zero] at h0
    rw [refreshFunc_of_reportedState meta id mg log "Cancelling" h0]
    have hatt : pollAttempt ["Cancelling"] ["Succeeded", "Canceled", "Failed"] meta.IsTransient
        ({ result := some (meta.RemediationsClient.GetAtManagementGroup (log.countP Call.isGet)
            mg.Name id.Name).1, state := "Cancelling", err := none } : RefreshOut Remediation)
        = PollResult.StillPending := by
      unfold pollAttempt
      simp
    simp only [hatt]
    have hcount : List.countP Call.isGet (log ++ [Call.GetAtManagementGroup mg.Name id.Name])
        = List.countP Call.isGet log + 1 := by
      simp [List.countP_append, Call.isGet]
    rw [ih n _ (log ++ [Call.GetAtManagementGroup mg.Name id.Name]) (by omega)
      (by
        intro j hj
        rw [hcount]
        have := hpend (j + 1) (by omega)
        rwa [show List.countP Call.isGet log + 1 + j = List.countP Call.isGet log + (j + 1) by omega])
      (by
        rw [hcount]
        rwa [show List.countP Call.isGet log + 1 + k = List.countP Call.isGet log + (k + 1) by omega])]
    simp [List.replicate_succ]

/-- C9: in the wait that the delete handler configures, when the stream of
provisioning states is `Cancelling` for the first `k` status queries and then
a value `p` outside both phase sets, and the timeout leaves room for `k + 1`
queries, the wait returns the unknown-phase error for `p` after exactly
`k + 1` queries, and the delete handler returns that error wrapped, having
issued no `DeleteAtManagementGroup`. -/
theorem remediationDelete_unknown_phase (d : ResourceData) (meta : Meta) (log : List Call)
    (id : ResourcePolicyRemediationId) (mg : ManagementGroupId) (p : String) (k : Nat)
    (hid : meta.ResourcePolicyRemediationID d.Id = .ok id)
    (hmg : meta.ManagementGroupID id.ResourceId = .ok mg)
    (hget : (meta.RemediationsClient.GetAtManagementGroup (log.countP Call.isGet)
      mg.Name id.Name).2 = none)
    (hguard : (meta.RemediationsClient.GetAtManagementGroup (log.countP Call.isGet)
      mg.Name id.Name).1.RemediationProperties.any
        (fun props => props.ResourceDiscoveryMode == ReEvaluateCompliance) = true)
    (hcancel : (meta.RemediationsClient.CancelAtManagementGroup (log.countP Call.isCancel)
      mg.Name id.Name).2 = none)
    (hp : p ∉ ["Cancelling"]) (ht : p ∉ ["Succeeded", "Canceled", "Failed"])
    (hk : k < d.TimeoutDelete)
    (hpend : ∀ j, j < k → reportedState (meta.RemediationsClient.GetAtManagementGroup
      (log.countP Call.isGet + 1 + j) mg.Name id.Name) = some "Cancelling")
    (hunknown : reportedState (meta.RemediationsClient.GetAtManagementGroup
      (log.countP Call.isGet + 1 + k) mg.Name id.Name) = some p) :
    cancellationWait d meta id mg (log ++ [Call.GetAtManagementGroup mg.Name id.Name,
        Call.CancelAtManagementGroup mg.Name id.Name])
      = (PollResult.Error (Err.unknownPhase p),
         log ++ [Call.GetAtManagementGroup mg.Name id.Name,
           Call.CancelAtManagementGroup mg.Name id.Name]
           ++ List.replicate (k + 1) (Call.GetAtManagementGroup mg.Name id.Name))
    ∧ resourceArmManagementGroupPolicyRemediationDelete d meta log
      = ⟨some (Err.wrap "waiting for %s to be canceled: %+v" [meta.ID id] (Err.unknownPhase p)), d,
         log ++ [Call.GetAtManagementGroup mg.Name id.Name,
           Call.CancelAtManagementGroup mg.Name id.Name]
           ++ List.replicate (k + 1) (Call.GetAtManagementGroup mg.Name id.Name)⟩
    ∧ ∀ c ∈ (resourceArmManagementGroupPolicyRemediationDelete d meta log).log.drop log.length,
        c.isDelete = false := by
  have hcount : List.countP Call.isGet (log ++ [Call.GetAtManagementGroup mg.Name id.Name,
      Call.CancelAtManagementGroup mg.Name id.Name]) = List.countP Call.isGet log + 1 := by
    simp [List.countP_append, List.countP_cons, Call.isGet]
  have hwait : cancellationWait d meta id mg (log ++ [Call.GetAtManagementGroup mg.Name id.Name,
        Call.CancelAtManagementGroup mg.Name id.Name])
      = (PollResult.Error (Err.unknownPhase p),
         log ++ [Call.GetAtManagementGroup mg.Name id.Name,
           Call.CancelAtManagementGroup mg.Name id.Name]
           ++ List.replicate (k + 1) (Call.GetAtManagementGroup mg.Name id.Name)) := by
    unfold cancellationWait
    exact cancellationWait_unknownPhase meta id mg p hp ht k d.TimeoutDelete "" _ hk
      (by intro j hj; rw [hcount]; exact hpend j hj) (by rw [hcount]; exact hunknown)
  have hdel : resourceArmManagementGroupPolicyRemediationDelete d meta log
      = ⟨some (Err.wrap "waiting for %s to be canceled: %+v" [meta.ID id] (Err.unknownPhase p)), d,
         log ++ [Call.GetAtManagementGroup mg.Name id.Name,
           Call.CancelAtManagementGroup mg.Name id.Name]
           ++ List.replicate (k + 1) (Call.GetAtManagementGroup mg.Name id.Name)⟩ := by
    rw [delete_after_cancel d meta log id mg hid hmg hget hguard hcancel, hwait]
    rfl
  refine ⟨hwait, hdel, ?_⟩
  rw [hdel]
  simp [Call.isDelete]

theorem remediationDelete_unknown_phase_witness :
    (resourceArmManagementGroupPolicyRemediationDelete sampleData
      (sampleMeta (sampleClient sampleUnknownPhase none none none)) []).err
      = some (Err.wrap "waiting for %s to be canceled: %+v" ["group/remediations/rem"]
          (Err.unknownPhase "Evaluating"))
    ∧ (resourceArmManagementGroupPolicyRemediationDelete sampleData
      (sampleMeta (sampleClient sampleUnknownPhase none none none)) []).log
      = [Call.GetAtManagementGroup "group" "rem", Call.CancelAtManagementGroup "group" "rem",
          Call.GetAtManagementGroup "group" "rem", Call.GetAtManagementGroup "group" "rem"] :=
  have h := (remediationDelete_unknown_phase sampleData
      (sampleMeta (sampleClient sampleUnknownPhase none none none)) []
      { Name := "rem", ResourceId := "group" } { Name := "group" } "Evaluating" 1
      (by rfl) (by rfl) (by decide) (by decide) (by decide) (by decide) (by decide) (by decide)
      (by intro j hj; interval_cases j; decide) (by decide)).2.1
  ⟨congrArg Outcome.err h, congrArg Outcome.log h⟩

/-- C10 (evaluation at the failing input): the remediation needs no
cancellation and `DeleteAtManagementGroup` fails with the message `conflict`;
the delete handler returns that error as it is, without the resource identity
and without the operation. -/
theorem remediationDelete_final_error_unwrapped :
    (resourceArmManagementGroupPolicyRemediationDelete sampleData
      (sampleMeta (sampleClient sampleNonCompliant none (some "conflict") none)) []).err
      = some (Err.remote "conflict")
    ∧ (resourceArmManagementGroupPolicyRemediationDelete sampleData
      (sampleMeta (sampleClient sampleCancelling none (some "conflict") none)) []).err
      = some (Err.remote "conflict") := by
  decide

end Policy

/-! ## Checks of the public IP configuration -/

namespace Network

theorem isCreateOrUpdate_of_isGet (c : Call) (h : c.isGet = true) : c.isCreateOrUpdate = false := by
  cases c <;> simp_all [Call.isGet, Call.isCreateOrUpdate]

/-- Every `CreateOrUpdate` that the create/update handler issues comes after
the existence check and the allocation check have passed and carries the
payload built with the zones that `expandPublicIpZones` returned. -/
theorem publicIpCreateUpdate_calls (d : ResourceData) (meta : Meta) (log : List Call) (c : Call)
    (hc : c ∈ (resourcePublicIpCreateUpdate d meta log).log.drop log.length)
    (hcreate : c.isCreateOrUpdate = true) :
    ∃ zones, expandPublicIpZones d meta (d.Get "sku").asString (d.Get "sku_tier").asString
        = .ok zones
      ∧ c = Call.CreateOrUpdate (d.Get "resource_group_name").asString (d.Get "name").asString
          (publicIpParameters d meta (NewPublicIpAddressID meta.SubscriptionId
            (d.Get "resource_group_name").asString (d.Get "name").asString) zones)
      ∧ (checkExisting d meta (NewPublicIpAddressID meta.SubscriptionId
            (d.Get "resource_group_name").asString (d.Get "name").asString) log).1 = none
      ∧ (meta.EqualFold (d.Get "sku").asString "standard"
          && !meta.EqualFold (d.Get "allocation_method").asString "static") = false := by
  obtain ⟨l, hl, hgets⟩ := checkExisting_gets d meta (NewPublicIpAddressID meta.SubscriptionId
    (d.Get "resource_group_name").asString (d.Get "name").asString) log
  have hnotget : ∀ c' ∈ l, c' ≠ c := by
    intro c' hc' heq
    have := isCreateOrUpdate_of_isGet c' (hgets c' hc')
    rw [heq, hcreate] at this
    exact absurd this (by simp)
  have hl' : c ∉ l := fun h => hnotget c h rfl
  unfold resourcePublicIpCreateUpdate at hc
  simp only [callCreateOrUpdate, callWait, hl] at hc
  split at hc
  · simp at hc; exact absurd hc hl'
  · rename_i hchecked
    split at hc
    · simp at hc; exact absurd hc hl'
    · rename_i hstatic
      split at hc
      · simp at hc; exact absurd hc hl'
      · rename_i zones hzones
        refine ⟨zones, hzones, ?_, hchecked, by simpa using hstatic⟩
        have hkey : ∀ (rest : List Call), (∀ c' ∈ rest, c'.isCreateOrUpdate = false) →
            c ∈ l ++ [Call.CreateOrUpdate (d.Get "resource_group_name").asString
              (d.Get "name").asString (publicIpParameters d meta (NewPublicIpAddressID
                meta.SubscriptionId (d.Get "resource_group_name").asString
                (d.Get "name").asString) zones)] ++ rest →
            c = Call.CreateOrUpdate (d.Get "resource_group_name").asString
              (d.Get "name").asString (publicIpParameters d meta (NewPublicIpAddressID
                meta.SubscriptionId (d.Get "resource_group_name").asString
                (d.Get "name").asString) zones) := by
          intro rest hrest hmem
          simp only [List.mem_append, List.mem_singleton] at hmem
          rcases hmem with (h | h) | h
          · exact absurd h hl'
          · exact h
          · have := hrest c h
            rw [hcreate] at this
            exact absurd this (by simp)
        split at hc
        · apply hkey []
          · simp
          · simpa [NewPublicIpAddressID] using hc
        · split at hc
          · apply hkey [Call.WaitForCompletionRef (meta.PublicIPsClient.CreateOrUpdate
              (List.countP Call.isCreateOrUpdate (log ++ l))
              (d.Get "resource_group_name").asString (d.Get "name").asString
              (publicIpParameters d meta (NewPublicIpAddressID meta.SubscriptionId
                (d.Get "resource_group_name").asString (d.Get "name").asString) zones)).1]
            · simp [Call.isCreateOrUpdate]
            · simpa [NewPublicIpAddressID] using hc
          · obtain ⟨l', hlog, hgets'⟩ := (publicIpRead_frame (d.SetId (meta.ID
              (NewPublicIpAddressID meta.SubscriptionId (d.Get "resource_group_name").asString
                (d.Get "name").asString))) meta
              (log ++ l ++ [Call.CreateOrUpdate
                (NewPublicIpAddressID meta.SubscriptionId (d.Get "resource_group_name").asString
                  (d.Get "name").asString).ResourceGroup
                (NewPublicIpAddressID meta.SubscriptionId (d.Get "resource_group_name").asString
                  (d.Get "name").asString).Name
                (publicIpParameters d meta (NewPublicIpAddressID meta.SubscriptionId
                  (d.Get "resource_group_name").asString (d.Get "name").asString) zones)] ++
                [Call.WaitForCompletionRef (meta.PublicIPsClient.CreateOrUpdate
                  (List.countP Call.isCreateOrUpdate (log ++ l))
                  (NewPublicIpAddressID meta.SubscriptionId (d.Get "resource_group_name").asString
                    (d.Get "name").asString).ResourceGroup
                  (NewPublicIpAddressID meta.SubscriptionId (d.Get "resource_group_name").asString
                    (d.Get "name").asString).Name
                  (publicIpParameters d meta (NewPublicIpAddressID meta.SubscriptionId
                    (d.Get "resource_group_name").asString (d.Get "name").asString) zones)).1])).2.2
            rw [hlog] at hc
            apply hkey (Call.WaitForCompletionRef (meta.PublicIPsClient.CreateOrUpdate
              (List.countP Call.isCreateOrUpdate (log ++ l))
              (d.Get "resource_group_name").asString (d.Get "name").asString
              (publicIpParameters d meta (NewPublicIpAddressID meta.SubscriptionId
                (d.Get "resource_group_name").asString (d.Get "name").asString) zones)).1 :: l')
            · intro c' hc'
              simp only [List.mem_cons] at hc'
              rcases hc' with rfl | hc'
              · rfl
              · exact isCreateOrUpdate_of_isGet c' (hgets' c' hc')
            · simpa [NewPublicIpAddressID] using hc

end Network

namespace Network

theorem checkExisting_err_not_msg (d : ResourceData) (meta : Meta) (id : PublicIpAddressId)
    (log : List Call) (text : String) : (checkExisting d meta id log).1 ≠ some (Err.msg text) := by
  unfold checkExisting
  simp only [callGet]
  split
  · split <;> simp
  · simp

theorem publicIpRead_err_not_msg (d : ResourceData) (meta : Meta) (log : List Call)
    (text : String) : (resourcePublicIpRead d meta log).err ≠ some (Err.msg text) := by
  unfold resourcePublicIpRead
  split
  · simp
  · simp only [callGet]
    split
    · split <;> simp
    · simp only [FlattenAndSet]
      split <;> simp

theorem expandPublicIpZones_error_text (d : ResourceData) (meta : Meta) (sku sku_tier : String)
    (e : Err) (h : expandPublicIpZones d meta sku sku_tier = .error e) :
    e = Err.msg "Availability Zones are not available on the `Basic` SKU"
    ∨ e = Err.msg "Global` SKU tier is not available on the `Basic` SKU"
    ∨ e = Err.msg "Availability Zones are not available on the `Global` SKU tier" := by
  unfold expandPublicIpZones at h
  simp only at h
  generalize (if (d.GetOk "availability_zone").2 = true then _ else _ : List String) = zones2 at h
  split_ifs at h
  all_goals first
    | exact Or.inl (Except.error.inj h).symm
    | exact Or.inr (Or.inl (Except.error.inj h).symm)
    | exact Or.inr (Or.inr (Except.error.inj h).symm)

/-- The create/update handler on a Standard SKU without static allocation:
the error is that of the existence check if that check fails and the
static-allocation error otherwise; the resource data is unchanged. -/
theorem publicIpCreateUpdate_standard_dynamic (d : ResourceData) (meta : Meta) (log : List Call)
    (hsku : meta.EqualFold (d.Get "sku").asString "standard" = true)
    (halloc : meta.EqualFold (d.Get "allocation_method").asString "static" = false) :
    (resourcePublicIpCreateUpdate d meta log).err
        = some (match (checkExisting d meta (NewPublicIpAddressID meta.SubscriptionId
            (d.Get "resource_group_name").asString (d.Get "name").asString) log).1 with
          | some err => err
          | none => Err.msg
            "Static IP allocation must be used when creating Standard SKU public IP addresses.")
    ∧ (resourcePublicIpCreateUpdate d meta log).d = d := by
  unfold resourcePublicIpCreateUpdate
  simp only [hsku, halloc]
  cases hchecked : (checkExisting d meta (NewPublicIpAddressID meta.SubscriptionId
      (d.Get "resource_group_name").asString (d.Get "name").asString) log).1 <;> simp

/-- The static-allocation error is returned only for a Standard SKU without
static allocation. -/
theorem publicIpCreateUpdate_static_error_only (d : ResourceData) (meta : Meta) (log : List Call)
    (h : (resourcePublicIpCreateUpdate d meta log).err = some (Err.msg
      "Static IP allocation must be used when creating Standard SKU public IP addresses.")) :
    meta.EqualFold (d.Get "sku").asString "standard" = true
    ∧ meta.EqualFold (d.Get "allocation_method").asString "static" = false := by
  unfold resourcePublicIpCreateUpdate at h
  simp only [callCreateOrUpdate, callWait] at h
  split at h
  · rename_i err herr
    simp only [Option.some.injEq] at h
    rw [h] at herr
    exact absurd herr (checkExisting_err_not_msg _ _ _ _ _)
  · split at h
    · rename_i hcond
      simpa using hcond
    · split at h
      · rename_i err herr
        simp only [Option.some.injEq] at h
        rcases expandPublicIpZones_error_text _ _ _ _ _ herr with he | he | he <;>
          · rw [he] at h
            exact absurd h (by decide)
      · split at h
        · simp at h
        · split at h
          · simp at h
          · exact absurd h (publicIpRead_err_not_msg _ _ _ _)

end Network

/-- C11 (as amended): on every configuration whose sku equals `standard`
and whose allocation_method does not equal `static`, both without regard to
case, the public IP create/update handler returns an error, issues no
`CreateOrUpdate` and leaves the resource data, so the ID, unchanged; the error
is the static-allocation error whenever the existence check lets the run go
on, and the error of the existence check otherwise.  The static-allocation
error is returned for no other sku and allocation_method. -/
theorem publicIpCreateUpdate_standard_requires_static :
    (∀ (d : ResourceData) (meta : Network.Meta) (log : List Network.Call),
      meta.EqualFold (d.Get "sku").asString "standard" = true →
      meta.EqualFold (d.Get "allocation_method").asString "static" = false →
      (Network.resourcePublicIpCreateUpdate d meta log).err
          = some (match (Network.checkExisting d meta (Network.NewPublicIpAddressID
              meta.SubscriptionId (d.Get "resource_group_name").asString
              (d.Get "name").asString) log).1 with
            | some err => err
            | none => Err.msg
              "Static IP allocation must be used when creating Standard SKU public IP addresses.")
      ∧ (Network.resourcePublicIpCreateUpdate d meta log).d = d
      ∧ ∀ c ∈ (Network.resourcePublicIpCreateUpdate d meta log).log.drop log.length,
          c.isCreateOrUpdate = false)
    ∧ (∀ (d : ResourceData) (meta : Network.Meta) (log : List Network.Call),
      (Network.resourcePublicIpCreateUpdate d meta log).err = some (Err.msg
        "Static IP allocation must be used when creating Standard SKU public IP addresses.") →
      meta.EqualFold (d.Get "sku").asString "standard" = true
      ∧ meta.EqualFold (d.Get "allocation_method").asString "static" = false) := by
  refine ⟨fun d meta log hsku halloc => ?_,
    fun d meta log h => Network.publicIpCreateUpdate_static_error_only d meta log h⟩
  obtain ⟨herr, hd⟩ := Network.publicIpCreateUpdate_standard_dynamic d meta log hsku halloc
  refine ⟨herr, hd, fun c hc => ?_⟩
  cases hcreate : c.isCreateOrUpdate with
  | false => rfl
  | true =>
    obtain ⟨_, _, _, _, hstatic⟩ := Network.publicIpCreateUpdate_calls d meta log c hc hcreate
    rw [hsku, halloc] at hstatic
    exact absurd hstatic (by decide)

theorem publicIpCreateUpdate_standard_requires_static_witness :
    (Network.resourcePublicIpCreateUpdate Network.sampleDynamic
      (Network.sampleMeta (Network.sampleClient (Network.sampleFailedGet 404) none none none 200))
      []).err = some (Err.msg
        "Static IP allocation must be used when creating Standard SKU public IP addresses.") :=
  (publicIpCreateUpdate_standard_requires_static.1 Network.sampleDynamic
    (Network.sampleMeta (Network.sampleClient (Network.sampleFailedGet 404) none none none 200))
    [] (by decide) (by decide)).1

/-- C11 (counterexample): a new Standard address with dynamic allocation
whose name is already taken: the handler returns the import-as-exists error,
not the static-allocation error. -/
theorem publicIpCreateUpdate_existing_standard_dynamic :
    (Network.sampleMeta (Network.sampleClient (fun _ => (Network.samplePublicIp 200, none))
        none none none 200)).EqualFold (Network.sampleDynamic.Get "sku").asString "standard" = true
    ∧ (Network.sampleMeta (Network.sampleClient (fun _ => (Network.samplePublicIp 200, none))
        none none none 200)).EqualFold
          (Network.sampleDynamic.Get "allocation_method").asString "static" = false
    ∧ (Network.resourcePublicIpCreateUpdate Network.sampleDynamic
        (Network.sampleMeta (Network.sampleClient (fun _ => (Network.samplePublicIp 200, none))
          none none none 200)) []).err
        = some (Err.importAsExists "azurerm_public_ip" "sub/rg/ip")
    ∧ (Network.resourcePublicIpCreateUpdate Network.sampleDynamic
        (Network.sampleMeta (Network.sampleClient (fun _ => (Network.samplePublicIp 200, none))
          none none none 200)) []).err ≠ some (Err.msg
          "Static IP allocation must be used when creating Standard SKU public IP addresses.") := by
  decide

namespace Network

/-- The zones of the payload with the 3.0 beta feature off, in terms of
`zonesSet` and `resolvedZones`. -/
theorem expandPublicIpZones_beta_off (d : ResourceData) (meta : Meta) (sku sku_tier : String)
    (hbeta : meta.ThreePointOhBeta = false) :
    expandPublicIpZones d meta sku sku_tier
      = if meta.EqualFold sku "Basic" && (zonesSet d && decide ((resolvedZones d meta).length > 0))
        then .error (Err.msg "Availability Zones are not available on the `Basic` SKU")
        else if meta.EqualFold sku "Basic" && meta.EqualFold sku_tier "Global" then
          .error (Err.msg "Global` SKU tier is not available on the `Basic` SKU")
        else if meta.EqualFold sku_tier "Global"
            && (zonesSet d && decide ((if meta.EqualFold sku "Basic" then []
              else resolvedZones d meta).length > 0)) then
          .error (Err.msg "Availability Zones are not available on the `Global` SKU tier")
        else .ok (some (if meta.EqualFold sku_tier "Global" then []
          else if meta.EqualFold sku "Basic" then [] else resolvedZones d meta)) := by
  unfold expandPublicIpZones zonesSet resolvedZones
  simp only [hbeta, Bool.false_eq_true, if_false]

/-- A zone error makes the create/update handler fail. -/
theorem publicIpCreateUpdate_zones_error (d : ResourceData) (meta : Meta) (log : List Call)
    (e : Err)
    (h : expandPublicIpZones d meta (d.Get "sku").asString (d.Get "sku_tier").asString
      = .error e) :
    (resourcePublicIpCreateUpdate d meta log).err ≠ none := by
  unfold resourcePublicIpCreateUpdate
  simp only [h]
  split
  · simp
  · split <;> simp

/-- When the existence check and the allocation check pass and the zones are
resolved, the create/update handler issues the `CreateOrUpdate` with them. -/
theorem publicIpCreateUpdate_issues_create (d : ResourceData) (meta : Meta) (log : List Call)
    (zones : Option (List String))
    (hchecked : (checkExisting d meta (NewPublicIpAddressID meta.SubscriptionId
      (d.Get "resource_group_name").asString (d.Get "name").asString) log).1 = none)
    (hstatic : (meta.EqualFold (d.Get "sku").asString "standard"
      && !meta.EqualFold (d.Get "allocation_method").asString "static") = false)
    (hzones : expandPublicIpZones d meta (d.Get "sku").asString (d.Get "sku_tier").asString
      = .ok zones) :
    Call.CreateOrUpdate (d.Get "resource_group_name").asString (d.Get "name").asString
        (publicIpParameters d meta (NewPublicIpAddressID meta.SubscriptionId
          (d.Get "resource_group_name").asString (d.Get "name").asString) zones)
      ∈ (resourcePublicIpCreateUpdate d meta log).log.drop log.length := by
  obtain ⟨l, hl, -⟩ := checkExisting_gets d meta (NewPublicIpAddressID meta.SubscriptionId
    (d.Get "resource_group_name").asString (d.Get "name").asString) log
  unfold resourcePublicIpCreateUpdate
  simp only [callCreateOrUpdate, callWait, hl, hchecked, hstatic, hzones, Bool.false_eq_true,
    if_false]
  split
  · simp [NewPublicIpAddressID]
  · split
    · simp [NewPublicIpAddressID]
    · obtain ⟨l', hlog, -⟩ := (publicIpRead_frame (d.SetId (meta.ID
        (NewPublicIpAddressID meta.SubscriptionId (d.Get "resource_group_name").asString
          (d.Get "name").asString))) meta
        (log ++ l ++ [Call.CreateOrUpdate
          (NewPublicIpAddressID meta.SubscriptionId (d.Get "resource_group_name").asString
            (d.Get "name").asString).ResourceGroup
          (NewPublicIpAddressID meta.SubscriptionId (d.Get "resource_group_name").asString
            (d.Get "name").asString).Name
          (publicIpParameters d meta (NewPublicIpAddressID meta.SubscriptionId
            (d.Get "resource_group_name").asString (d.Get "name").asString) zones)] ++
          [Call.WaitForCompletionRef (meta.PublicIPsClient.CreateOrUpdate
            (List.countP Call.isCreateOrUpdate (log ++ l))
            (NewPublicIpAddressID meta.SubscriptionId (d.Get "resource_group_name").asString
              (d.Get "name").asString).ResourceGroup
            (NewPublicIpAddressID meta.SubscriptionId (d.Get "resource_group_name").asString
              (d.Get "name").asString).Name
            (publicIpParameters d meta (NewPublicIpAddressID meta.SubscriptionId
              (d.Get "resource_group_name").asString (d.Get "name").asString) zones)).1])).2.2
      rw [hlog]
      simp [NewPublicIpAddressID]

/-- C12: with the 3.0 beta feature off and the sku `Basic` or the sku_tier
`Global` (without regard to case): (a) if `zones` or `availability_zone` is set
and the resolved zone list is not empty, the handler returns an error and
issues no `CreateOrUpdate`; (b) if the sku is `Basic` and the tier `Global`, it
returns an error and issues no `CreateOrUpdate`; (c) otherwise every
`CreateOrUpdate` it issues carries the empty zone list, and it issues one as
soon as the existence check and the allocation check pass. -/
theorem publicIpCreateUpdate_zones_basic_global (d : ResourceData) (meta : Meta)
    (log : List Call)
    (hbeta : meta.ThreePointOhBeta = false)
    (hsku : meta.EqualFold (d.Get "sku").asString "Basic" = true
      ∨ meta.EqualFold (d.Get "sku_tier").asString "Global" = true) :
    (zonesSet d = true → (resolvedZones d meta).length > 0 →
      (resourcePublicIpCreateUpdate d meta log).err ≠ none
      ∧ ∀ c ∈ (resourcePublicIpCreateUpdate d meta log).log.drop log.length,
          c.isCreateOrUpdate = false)
    ∧ (meta.EqualFold (d.Get "sku").asString "Basic" = true →
      meta.EqualFold (d.Get "sku_tier").asString "Global" = true →
      (resourcePublicIpCreateUpdate d meta log).err ≠ none
      ∧ ∀ c ∈ (resourcePublicIpCreateUpdate d meta log).log.drop log.length,
          c.isCreateOrUpdate = false)
    ∧ (¬(zonesSet d = true ∧ (resolvedZones d meta).length > 0) →
      ¬(meta.EqualFold (d.Get "sku").asString "Basic" = true
        ∧ meta.EqualFold (d.Get "sku_tier").asString "Global" = true) →
      (∀ rg name p, Call.CreateOrUpdate rg name p
          ∈ (resourcePublicIpCreateUpdate d meta log).log.drop log.length → p.Zones = some [])
      ∧ ((checkExisting d meta (NewPublicIpAddressID meta.SubscriptionId
            (d.Get "resource_group_name").asString (d.Get "name").asString) log).1 = none →
          (meta.EqualFold (d.Get "sku").asString "standard"
            && !meta.EqualFold (d.Get "allocation_method").asString "static") = false →
          ∃ p, p.Zones = some [] ∧
            Call.CreateOrUpdate (d.Get "resource_group_name").asString (d.Get "name").asString p
              ∈ (resourcePublicIpCreateUpdate d meta log).log.drop log.length)) := by
  have hexp := expandPublicIpZones_beta_off d meta (d.Get "sku").asString
    (d.Get "sku_tier").asString hbeta
  have hblock : (∃ e, expandPublicIpZones d meta (d.Get "sku").asString
      (d.Get "sku_tier").asString = .error e) →
      (resourcePublicIpCreateUpdate d meta log).err ≠ none
      ∧ ∀ c ∈ (resourcePublicIpCreateUpdate d meta log).log.drop log.length,
          c.isCreateOrUpdate = false := by
    rintro ⟨e, he⟩
    refine ⟨publicIpCreateUpdate_zones_error d meta log e he, fun c hc => ?_⟩
    cases hcreate : c.isCreateOrUpdate with
    | false => rfl
    | true =>
      obtain ⟨zones, hz, -⟩ := publicIpCreateUpdate_calls d meta log c hc hcreate
      rw [he] at hz
      exact absurd hz (by simp)
  refine ⟨fun hset hlen => ?_, fun hbasic hglobal => ?_, fun hna hnb => ?_⟩
  · cases hbasic : meta.EqualFold (d.Get "sku").asString "Basic" with
    | true =>
      apply hblock
      rw [hexp]
      simp [hbasic, hset, hlen]
    | false =>
      have hglobal : meta.EqualFold (d.Get "sku_tier").asString "Global" = true := by
        rcases hsku with h | h
        · rw [hbasic] at h; exact absurd h (by simp)
        · exact h
      apply hblock
      rw [hexp]
      simp [hbasic, hglobal, hset, hlen]
  · by_cases hz : zonesSet d = true ∧ (resolvedZones d meta).length > 0
    · apply hblock
      rw [hexp]
      simp [hbasic, hz.1, hz.2]
    · apply hblock
      rw [hexp]
      have : (zonesSet d && decide ((resolvedZones d meta).length > 0)) = false := by
        simpa using hz
      simp only [hbasic, hglobal, this, Bool.and_false, Bool.false_eq_true, if_false,
        Bool.and_self, if_true]
      exact ⟨_, rfl⟩
  · have hzfalse : (zonesSet d && decide ((resolvedZones d meta).length > 0)) = false := by
      simpa using hna
    have hok : expandPublicIpZones d meta (d.Get "sku").asString (d.Get "sku_tier").asString
        = .ok (some []) := by
      rw [hexp]
      cases hbasic : meta.EqualFold (d.Get "sku").asString "Basic" with
      | true =>
        have hglobal : meta.EqualFold (d.Get "sku_tier").asString "Global" = false := by
          cases hg : meta.EqualFold (d.Get "sku_tier").asString "Global" with
          | false => rfl
          | true => exact absurd ⟨hbasic, hg⟩ hnb
        simp [hglobal, hzfalse]
      | false =>
        have hglobal : meta.EqualFold (d.Get "sku_tier").asString "Global" = true := by
          rcases hsku with h | h
          · rw [hbasic] at h; exact absurd h (by simp)
          · exact h
        simp [hglobal, hzfalse]
    refine ⟨fun rg name p hp => ?_, fun hchecked hstatic => ⟨_, ?_,
      publicIpCreateUpdate_issues_create d meta log (some []) hchecked hstatic hok⟩⟩
    · obtain ⟨zones, hz, hc, -⟩ := publicIpCreateUpdate_calls d meta log _ hp rfl
      rw [hok] at hz
      simp only [Except.ok.injEq] at hz
      simp only [Call.CreateOrUpdate.injEq] at hc
      rw [hc.2.2, ← hz]
      rfl
    · rfl

theorem publicIpCreateUpdate_zones_basic_global_witness :
    (sampleMeta (sampleClient (sampleFailedGet 404) none none none 200)).EqualFold
        (sampleBasicZone.Get "sku").asString "Basic" = true
    ∧ zonesSet sampleBasicZone = true
    ∧ (resourcePublicIpCreateUpdate sampleBasicZone
        (sampleMeta (sampleClient (sampleFailedGet 404) none none none 200)) []).err ≠ none :=
  ⟨by decide, by decide,
    ((publicIpCreateUpdate_zones_basic_global sampleBasicZone
      (sampleMeta (sampleClient (sampleFailedGet 404) none none none 200)) []
      (by rfl) (Or.inl (by decide))).1 (by decide) (by decide)).1⟩

end Network

/-! ## Validators -/

namespace Cdn

/-- C13 (evaluation at the failing inputs): `ValidateFrontdoorCacheDuration`
rejects the durations `5.00:00:00`, `9.23:59:59`, `106.00:00:00` and
`199.00:00:00`, all in the format and below `365.23:59:59`, and accepts
`1x00:00:00`, which has no dot after the day count; it accepts
`365.23:59:59` and rejects `366.00:00:00` and every value that is no string. -/
theorem ValidateFrontdoorCacheDuration_failing_inputs :
    (ValidateFrontdoorCacheDuration (.str "5.00:00:00") "cache_duration").2 ≠ []
    ∧ (ValidateFrontdoorCacheDuration (.str "9.23:59:59") "cache_duration").2 ≠ []
    ∧ (ValidateFrontdoorCacheDuration (.str "106.00:00:00") "cache_duration").2 ≠ []
    ∧ (ValidateFrontdoorCacheDuration (.str "199.00:00:00") "cache_duration").2 ≠ []
    ∧ (ValidateFrontdoorCacheDuration (.str "1x00:00:00") "cache_duration").2 = []
    ∧ (ValidateFrontdoorCacheDuration (.str "365.23:59:59") "cache_duration").2 = []
    ∧ (ValidateFrontdoorCacheDuration (.str "366.00:00:00") "cache_duration").2 ≠ []
    ∧ (ValidateFrontdoorCacheDuration (.int 5) "cache_duration").2 ≠ [] := by
  decide

/-- C14 (evaluation at the failing inputs): `ValidateFrontdoorRuleSetName`
rejects the names `a` and `ab`, of one and two letters, although its own
message allows 1 to 90 characters; it accepts `abc` and `a1c` and rejects
`a1c9`, `1bc` and every value that is no string. -/
theorem ValidateFrontdoorRuleSetName_failing_inputs :
    (ValidateFrontdoorRuleSetName (.str "a") "name").2 ≠ []
    ∧ (ValidateFrontdoorRuleSetName (.str "ab") "name").2 ≠ []
    ∧ (ValidateFrontdoorRuleSetName (.str "abc") "name").2 = []
    ∧ (ValidateFrontdoorRuleSetName (.str "a1c") "name").2 = []
    ∧ (ValidateFrontdoorRuleSetName (.str "a1c9") "name").2 ≠ []
    ∧ (ValidateFrontdoorRuleSetName (.str "1bc") "name").2 ≠ []
    ∧ (ValidateFrontdoorRuleSetName (.int 5) "name").2 ≠ [] := by
  decide

/-- C17: `IsValidDomain` returns an empty error list for every input and
every behaviour of the three validators it consults. -/
theorem IsValidDomain_never_rejects
    (IsIPv6Address IsIPv4Address StringIsNotEmpty : Value → String → List String × List Err)
    (i : Value) (k : String) :
    (IsValidDomain IsIPv6Address IsIPv4Address StringIsNotEmpty i k).2 = [] := by
  unfold IsValidDomain
  split
  · rename_i h
    exact List.length_eq_zero.mp h
  · split
    · rename_i h
      exact List.length_eq_zero.mp h
    · split
      · rename_i h
        exact List.length_eq_zero.mp h
      · rfl

end Cdn

namespace Policy

/-- C16: one call of the cancellation refresh function returns an error,
with the empty phase and no result, exactly when the read fails, the
properties are nil or the provisioning state is nil; otherwise it returns no
error, the phase that the provisioning state points to and the response as
the result.  It issues exactly one read. -/
theorem refreshFunc_outcome (meta : Meta) (id : ResourcePolicyRemediationId)
    (mg : ManagementGroupId) (log : List Call) :
    let resp := meta.RemediationsClient.GetAtManagementGroup (log.countP Call.isGet)
      mg.Name id.Name
    let out := managementGroupPolicyRemediationCancellationRefreshFunc meta id mg log
    (out.1.err ≠ none ↔
      resp.2 ≠ none ∨ resp.1.RemediationProperties = none
        ∨ ∃ props, resp.1.RemediationProperties = some props ∧ props.ProvisioningState = none)
    ∧ (out.1.err ≠ none → out.1.state = "" ∧ out.1.result = none)
    ∧ (out.1.err = none →
        ∃ props state, resp.2 = none ∧ resp.1.RemediationProperties = some props
          ∧ props.ProvisioningState = some state
          ∧ out.1.state = state ∧ out.1.result = some resp.1)
    ∧ out.2 = log ++ [Call.GetAtManagementGroup mg.Name id.Name] := by
  intro resp out
  have hresp : resp = meta.RemediationsClient.GetAtManagementGroup (log.countP Call.isGet)
      mg.Name id.Name := rfl
  have hout : out = managementGroupPolicyRemediationCancellationRefreshFunc meta id mg log := rfl
  unfold managementGroupPolicyRemediationCancellationRefreshFunc at hout
  simp only [callGet, ← hresp] at hout
  cases h2 : resp.2 with
  | some e =>
    simp only [h2, Option.map_some'] at hout
    rw [hout]
    simp
  | none =>
    simp only [h2, Option.map_none'] at hout
    cases hprops : resp.1.RemediationProperties with
    | none =>
      simp only [hprops] at hout
      rw [hout]
      simp
    | some props =>
      simp only [hprops] at hout
      cases hstate : props.ProvisioningState with
      | none =>
        simp only [hstate] at hout
        rw [hout]
        simp [hstate]
      | some state =>
        simp only [hstate] at hout
        rw [hout]
        simp [hstate]

end Policy

/-! ## The tracked ID after a failed create or update -/

namespace Policy

theorem isGet_ne_createOrUpdate (c : Call) (h : c.isGet = true) (mg name : String)
    (p : Remediation) : c ≠ Call.CreateOrUpdateAtManagementGroup mg name p := by
  intro hc
  rw [hc] at h
  exact absurd h (by simp [Call.isGet])

/-- A failed run of the remediation create/update handler whose mutation was
issued and answered without error: the tracked ID is the new identity. -/
theorem remediationCreateUpdate_read_failed (d : ResourceData) (meta : Meta) (log : List Call)
    (mg' : String) (p : Remediation)
    (hc : Call.CreateOrUpdateAtManagementGroup mg' (d.Get "name").asString p
      ∈ (resourceArmManagementGroupPolicyRemediationCreateUpdate d meta log).log.drop log.length)
    (hans : (meta.RemediationsClient.CreateOrUpdateAtManagementGroup
      (log.countP Call.isCreateOrUpdate) mg' (d.Get "name").asString p).2 = none)
    (hfail : (resourceArmManagementGroupPolicyRemediationCreateUpdate d meta log).err ≠ none) :
    (resourceArmManagementGroupPolicyRemediationCreateUpdate d meta log).d.id
      = meta.ID (NewResourcePolicyRemediationId (d.Get "management_group_id").asString
          (d.Get "name").asString) := by
  unfold resourceArmManagementGroupPolicyRemediationCreateUpdate at hc hfail ⊢
  simp only [callCreateOrUpdate, NewResourcePolicyRemediationId] at hc hfail ⊢
  cases hparse : meta.ManagementGroupID (d.Get "management_group_id").asString with
  | error e =>
    simp only [hparse] at hc
    simp at hc
  | ok mg =>
    simp only [hparse] at hc hfail ⊢
    obtain ⟨l, hl, hgets⟩ := checkExisting_log d meta
      { Name := (d.Get "name").asString, ResourceId := (d.Get "management_group_id").asString }
      mg log
    have hcount := countP_append_gets Call.isCreateOrUpdate
      (by intro c; cases c <;> simp [Call.isGet, Call.isCreateOrUpdate]) log l hgets
    have hnotin : Call.CreateOrUpdateAtManagementGroup mg' (d.Get "name").asString p ∉ l :=
      fun h => isGet_ne_createOrUpdate _ (hgets _ h) _ _ _ rfl
    simp only [hl, hcount] at hc hfail ⊢
    cases hchecked : (checkExisting d meta
        { Name := (d.Get "name").asString, ResourceId := (d.Get "management_group_id").asString }
        mg log).1 with
    | some err =>
      simp only [hchecked] at hc
      simp at hc
      exact absurd hc hnotin
    | none =>
      simp only [hchecked] at hc hfail ⊢
      cases hcreated : (meta.RemediationsClient.CreateOrUpdateAtManagementGroup
          (List.countP Call.isCreateOrUpdate log) mg.Name (d.Get "name").asString
          { Response := { StatusCode := none }, ID := none,
            RemediationProperties := some
              { Filters := some { Locations := some (d.Get "location_filters").asStrings },
                PolicyAssignmentID := some (d.Get "policy_assignment_id").asString,
                PolicyDefinitionReferenceID := some (d.Get "policy_definition_id").asString,
                ResourceDiscoveryMode := (d.Get "resource_discovery_mode").asString,
                ProvisioningState := none } }).2 with
      | some e =>
        simp only [hcreated, Option.map_some'] at hc
        simp only [List.append_assoc, List.drop_left, List.mem_append, List.mem_singleton,
          Call.CreateOrUpdateAtManagementGroup.injEq, true_and] at hc
        rcases hc with hc | ⟨hmg, hp⟩
        · exact absurd hc hnotin
        · rw [hmg, hp, hcreated] at hans
          exact absurd hans (by simp)
      | none =>
        simp only [hcreated, Option.map_none'] at hfail ⊢
        exact (remediationRead_frame _ _ _).1 hfail

end Policy

namespace Network

/-- A failed run of the public IP create/update handler whose mutation was
issued and, with the wait on its future, answered without error: the tracked
ID is the new identity. -/
theorem publicIpCreateUpdate_read_failed (d : ResourceData) (meta : Meta) (log : List Call)
    (p : PublicIPAddress)
    (hc : Call.CreateOrUpdate (d.Get "resource_group_name").asString (d.Get "name").asString p
      ∈ (resourcePublicIpCreateUpdate d meta log).log.drop log.length)
    (hans : (meta.PublicIPsClient.CreateOrUpdate (log.countP Call.isCreateOrUpdate)
      (d.Get "resource_group_name").asString (d.Get "name").asString p).2 = none)
    (hwait : meta.PublicIPsClient.WaitForCompletionRef (log.countP Call.isWait)
      (meta.PublicIPsClient.CreateOrUpdate (log.countP Call.isCreateOrUpdate)
        (d.Get "resource_group_name").asString (d.Get "name").asString p).1 = none)
    (hfail : (resourcePublicIpCreateUpdate d meta log).err ≠ none) :
    (resourcePublicIpCreateUpdate d meta log).d.id
      = meta.ID (NewPublicIpAddressID meta.SubscriptionId
          (d.Get "resource_group_name").asString (d.Get "name").asString) := by
  obtain ⟨zones, hz, hceq, hchecked, hstatic⟩ := publicIpCreateUpdate_calls d meta log _ hc rfl
  simp only [Call.CreateOrUpdate.injEq, true_and] at hceq
  subst hceq
  obtain ⟨l, hl, hgets⟩ := checkExisting_gets d meta (NewPublicIpAddressID meta.SubscriptionId
    (d.Get "resource_group_name").asString (d.Get "name").asString) log
  have hc1 := countP_append_of_gets Call.isCreateOrUpdate
    (by intro c; cases c <;> simp [Call.isGet, Call.isCreateOrUpdate]) log l hgets
  have hc2 := countP_append_of_gets Call.isWait
    (by intro c; cases c <;> simp [Call.isGet, Call.isWait]) log l hgets
  have hans' : (meta.PublicIPsClient.CreateOrUpdate (List.countP Call.isCreateOrUpdate log)
      (NewPublicIpAddressID meta.SubscriptionId (d.Get "resource_group_name").asString
        (d.Get "name").asString).ResourceGroup
      (NewPublicIpAddressID meta.SubscriptionId (d.Get "resource_group_name").asString
        (d.Get "name").asString).Name
      (publicIpParameters d meta (NewPublicIpAddressID meta.SubscriptionId
        (d.Get "resource_group_name").asString (d.Get "name").asString) zones)).2 = none := hans
  have hwait' : meta.PublicIPsClient.WaitForCompletionRef (List.countP Call.isWait log)
      (meta.PublicIPsClient.CreateOrUpdate (List.countP Call.isCreateOrUpdate log)
        (NewPublicIpAddressID meta.SubscriptionId (d.Get "resource_group_name").asString
          (d.Get "name").asString).ResourceGroup
        (NewPublicIpAddressID meta.SubscriptionId (d.Get "resource_group_name").asString
          (d.Get "name").asString).Name
        (publicIpParameters d meta (NewPublicIpAddressID meta.SubscriptionId
          (d.Get "resource_group_name").asString (d.Get "name").asString) zones)).1 = none :=
    hwait
  unfold resourcePublicIpCreateUpdate at hfail ⊢
  simp only [callCreateOrUpdate, callWait, hl, countP_isWait_snoc_createOrUpdate, hc1, hc2,
    hchecked, hstatic, hz, hans', hwait', Option.map_none', Bool.false_eq_true, if_false]
    at hfail ⊢
  exact (publicIpRead_frame _ _ _).1 hfail

end Network

/-- C5 (as amended): in a failed run of a create/update handler the tracked ID
is decided by the remote mutation. When the mutation was issued and answered
without error (for the public IP together with the wait on its future), so
that only the confirmatory read failed, the tracked ID is the new identity
`id.ID()`; in every other failed run the resource data, so the tracked ID, is
what it was before the call. -/
theorem createUpdate_failure_tracked_id :
    (∀ (d : ResourceData) (meta : Network.Meta) (log : List Network.Call),
      (Network.resourcePublicIpCreateUpdate d meta log).err ≠ none →
      ((∃ p, Network.Call.CreateOrUpdate (d.Get "resource_group_name").asString
                (d.Get "name").asString p
              ∈ (Network.resourcePublicIpCreateUpdate d meta log).log.drop log.length
            ∧ (meta.PublicIPsClient.CreateOrUpdate (log.countP Network.Call.isCreateOrUpdate)
                (d.Get "resource_group_name").asString (d.Get "name").asString p).2 = none
            ∧ meta.PublicIPsClient.WaitForCompletionRef (log.countP Network.Call.isWait)
                (meta.PublicIPsClient.CreateOrUpdate (log.countP Network.Call.isCreateOrUpdate)
                  (d.Get "resource_group_name").asString (d.Get "name").asString p).1 = none) →
          (Network.resourcePublicIpCreateUpdate d meta log).d.id
            = meta.ID (Network.NewPublicIpAddressID meta.SubscriptionId
                (d.Get "resource_group_name").asString (d.Get "name").asString))
      ∧ ((¬ ∃ p, Network.Call.CreateOrUpdate (d.Get "resource_group_name").asString
                (d.Get "name").asString p
              ∈ (Network.resourcePublicIpCreateUpdate d meta log).log.drop log.length
            ∧ (meta.PublicIPsClient.CreateOrUpdate (log.countP Network.Call.isCreateOrUpdate)
                (d.Get "resource_group_name").asString (d.Get "name").asString p).2 = none
            ∧ meta.PublicIPsClient.WaitForCompletionRef (log.countP Network.Call.isWait)
                (meta.PublicIPsClient.CreateOrUpdate (log.countP Network.Call.isCreateOrUpdate)
                  (d.Get "resource_group_name").asString (d.Get "name").asString p).1 = none) →
          (Network.resourcePublicIpCreateUpdate d meta log).d = d))
    ∧ (∀ (d : ResourceData) (meta : Policy.Meta) (log : List Policy.Call),
      (Policy.resourceArmManagementGroupPolicyRemediationCreateUpdate d meta log).err ≠ none →
      ((∃ mg p, Policy.Call.CreateOrUpdateAtManagementGroup mg (d.Get "name").asString p
              ∈ (Policy.resourceArmManagementGroupPolicyRemediationCreateUpdate d meta log).log.drop
                  log.length
            ∧ (meta.RemediationsClient.CreateOrUpdateAtManagementGroup
                (log.countP Policy.Call.isCreateOrUpdate) mg (d.Get "name").asString p).2 = none) →
          (Policy.resourceArmManagementGroupPolicyRemediationCreateUpdate d meta log).d.id
            = meta.ID (Policy.NewResourcePolicyRemediationId
                (d.Get "management_group_id").asString (d.Get "name").asString))
      ∧ ((¬ ∃ mg p, Policy.Call.CreateOrUpdateAtManagementGroup mg (d.Get "name").asString p
              ∈ (Policy.resourceArmManagementGroupPolicyRemediationCreateUpdate d meta log).log.drop
                  log.length
            ∧ (meta.RemediationsClient.CreateOrUpdateAtManagementGroup
                (log.countP Policy.Call.isCreateOrUpdate) mg (d.Get "name").asString p).2 = none) →
          (Policy.resourceArmManagementGroupPolicyRemediationCreateUpdate d meta log).d = d)) :=
  ⟨fun d meta log hfail =>
      ⟨fun ⟨p, hc, hans, hwait⟩ =>
          Network.publicIpCreateUpdate_read_failed d meta log p hc hans hwait hfail,
        fun hnot => (Network.publicIpCreateUpdate_failure d meta log hfail).elim id
          (fun h => absurd h.2 hnot)⟩,
    fun d meta log hfail =>
      ⟨fun ⟨mg, p, hc, hans⟩ =>
          Policy.remediationCreateUpdate_read_failed d meta log mg p hc hans hfail,
        fun hnot => (Policy.remediationCreateUpdate_failure d meta log hfail).elim id
          (fun h => absurd h.2 hnot)⟩⟩

theorem createUpdate_failure_tracked_id_witness :
    ((Network.resourcePublicIpCreateUpdate Network.sampleNew
        (Network.sampleMeta (Network.sampleClient Network.sampleAbsentThenFailing
          none none none 200)) []).err ≠ none
      ∧ Network.Call.CreateOrUpdate "rg" "ip"
          (Network.publicIpParameters Network.sampleNew
            (Network.sampleMeta (Network.sampleClient Network.sampleAbsentThenFailing
              none none none 200))
            (Network.NewPublicIpAddressID "sub" "rg" "ip") (some ["1", "2"]))
          ∈ (Network.resourcePublicIpCreateUpdate Network.sampleNew
              (Network.sampleMeta (Network.sampleClient Network.sampleAbsentThenFailing
                none none none 200)) []).log
      ∧ (Network.resourcePublicIpCreateUpdate Network.sampleNew
          (Network.sampleMeta (Network.sampleClient Network.sampleAbsentThenFailing
            none none none 200)) []).d.id
        = (Network.sampleMeta (Network.sampleClient Network.sampleAbsentThenFailing
            none none none 200)).ID (Network.NewPublicIpAddressID "sub" "rg" "ip"))
    ∧ ((Network.resourcePublicIpCreateUpdate Network.sampleNew
        (Network.sampleMeta (Network.sampleClient (Network.sampleFailedGet 500)
          none none none 200)) []).err ≠ none
      ∧ (Network.resourcePublicIpCreateUpdate Network.sampleNew
          (Network.sampleMeta (Network.sampleClient (Network.sampleFailedGet 500)
            none none none 200)) []).log = [Network.Call.Get "rg" "ip" ""]
      ∧ (Network.resourcePublicIpCreateUpdate Network.sampleNew
          (Network.sampleMeta (Network.sampleClient (Network.sampleFailedGet 500)
            none none none 200)) []).d = Network.sampleNew) :=
  ⟨⟨by decide, by decide,
      (createUpdate_failure_tracked_id.1 Network.sampleNew
        (Network.sampleMeta (Network.sampleClient Network.sampleAbsentThenFailing
          none none none 200)) [] (by decide)).1
        ⟨Network.publicIpParameters Network.sampleNew
            (Network.sampleMeta (Network.sampleClient Network.sampleAbsentThenFailing
              none none none 200))
            (Network.NewPublicIpAddressID "sub" "rg" "ip") (some ["1", "2"]),
          by decide, by decide, by decide⟩⟩,
    ⟨by decide, by decide,
      (createUpdate_failure_tracked_id.1 Network.sampleNew
        (Network.sampleMeta (Network.sampleClient (Network.sampleFailedGet 500)
          none none none 200)) [] (by decide)).2
        (fun ⟨_, hc, _⟩ => absurd hc (by
          have hlog : (Network.resourcePublicIpCreateUpdate Network.sampleNew
              (Network.sampleMeta (Network.sampleClient (Network.sampleFailedGet 500)
                none none none 200)) []).log = [Network.Call.Get "rg" "ip" ""] := by decide
          rw [hlog]
          simp))⟩⟩

/-- C5 (counterexample): a new resource, the remote mutation succeeds and the
confirmatory read fails with status 500: each handler returns an error and the
tracked ID, empty before the call, is the new identity. -/
theorem createUpdate_failed_read_keeps_new_id :
    (Network.sampleNew.id = ""
      ∧ (Network.resourcePublicIpCreateUpdate Network.sampleNew
          (Network.sampleMeta (Network.sampleClient Network.sampleAbsentThenFailing
            none none none 200)) []).err ≠ none
      ∧ (Network.resourcePublicIpCreateUpdate Network.sampleNew
          (Network.sampleMeta (Network.sampleClient Network.sampleAbsentThenFailing
            none none none 200)) []).d.id = "sub/rg/ip")
    ∧ (Policy.sampleNew.id = ""
      ∧ (Policy.resourceArmManagementGroupPolicyRemediationCreateUpdate Policy.sampleNew
          (Policy.sampleMeta (Policy.sampleClient Policy.sampleAbsentThenFailing
            none none none)) []).err ≠ none
      ∧ (Policy.resourceArmManagementGroupPolicyRemediationCreateUpdate Policy.sampleNew
          (Policy.sampleMeta (Policy.sampleClient Policy.sampleAbsentThenFailing
            none none none)) []).d.id = "group/remediations/rem") := by
  decide

end AzureRM
